import Mathlib

/-!
Verification of the LMSAI repository's content-generation pipeline.

Shallow embedding of the Python sources:
  - `src/openrouter_service.py` (class `OpenRouterService`)
  - `src/aiservices.py`         (class `AITutorialGenerator`)
  - `src/routes.py`             (`_prepare_text_for_audio`, `generate_tutorial`,
                                 `generate_audio`)
  - `src/utils.py`              (`sanitize_input`, `validate_tutorial_input`)

Python strings are modelled as `List Char`; Python `None`-or-value results as
`Option`; caught exceptions as `Except` values consumed by the handler that
catches them.  Network and filesystem effects are parameters of the embedded
functions (the observable outcome of the call), so every embedded function is
a pure, executable Lean function.
-/

namespace LMSAI

/-- Python-style character strings (`str`) are modelled as lists of characters. -/
abbrev Str := List Char

/-! ## Generic string helpers shared by the embedded functions

These model the exact semantics of the Python primitives used by the source:
`str.replace`, `str.split`, `str.strip`, the `in` substring test, and the
left-to-right non-overlapping scan of literal `re` patterns. -/

/-- First occurrence of the non-empty pattern `pat` in a list: `some (a, b)`
means the scanned list is `a ++ pat ++ b` with no occurrence of `pat`
starting inside `a`.  Models Python's left-to-right substring scan. -/
def findSub (pat : Str) : Str → Option (Str × Str)
  | [] => none
  | c :: t =>
    if pat.isPrefixOf (c :: t) then
      some ([], (c :: t).drop pat.length)
    else
      match findSub pat t with
      | none => none
      | some (a, b) => some (c :: a, b)

/-- Python's substring test `pat in s` (for non-empty `pat`). -/
def containsSub (pat s : Str) : Bool :=
  (findSub pat s).isSome

/-- Fuel-indexed worker for `replaceAllSub`; the fuel only serves to make the
recursion structural, `s.length` fuel is always enough because every step
consumes at least one character. -/
def replaceAllAux (pat rep : Str) : Nat → Str → Str
  | _, [] => []
  | 0, s => s
  | fuel + 1, c :: t =>
    if pat.isPrefixOf (c :: t) then
      rep ++ replaceAllAux pat rep fuel ((c :: t).drop pat.length)
    else
      c :: replaceAllAux pat rep fuel t

/-- Python `s.replace(pat, rep)`: replace every occurrence, scanning left to
right without overlap.  (The source never calls `replace` with an empty
pattern; for an empty pattern we return `s` unchanged.) -/
def replaceAllSub (pat rep : Str) (s : Str) : Str :=
  if pat.isEmpty then s else replaceAllAux pat rep s.length s

/-- Python `s.replace(pat, rep, 1)`: replace only the first occurrence. -/
def replaceFirstSub (pat rep : Str) (s : Str) : Str :=
  match findSub pat s with
  | none => s
  | some (a, b) => a ++ rep ++ b

/-- Fuel-indexed worker for `splitOnSub`. -/
def splitOnAux (sep : Str) : Nat → Str → List Str
  | _, [] => [[]]
  | 0, s => [s]
  | fuel + 1, c :: t =>
    if sep.isPrefixOf (c :: t) then
      [] :: splitOnAux sep fuel ((c :: t).drop sep.length)
    else
      match splitOnAux sep fuel t with
      | [] => [[c]]
      | h :: r => (c :: h) :: r

/-- Python `s.split(sep)` for a non-empty separator: left-to-right
non-overlapping split, keeping empty pieces. -/
def splitOnSub (sep : Str) (s : Str) : List Str :=
  if sep.isEmpty then [s] else splitOnAux sep s.length s

/-- Python `s.strip()`: drop leading and trailing whitespace. -/
def stripChars (s : Str) : Str :=
  ((s.dropWhile Char.isWhitespace).reverse.dropWhile Char.isWhitespace).reverse

/-- Python `s.split()` with no argument: split on whitespace runs and drop the
empty pieces, so the result lists the whitespace-separated words. -/
def pyWords (s : Str) : List Str :=
  (List.splitOnP Char.isWhitespace s).filter (fun w => !w.isEmpty)

/-- Python `s.capitalize()`: first character uppercased, the rest lowercased. -/
def pyCapitalize : Str → Str
  | [] => []
  | c :: t => c.toUpper :: t.map Char.toLower

/-- Worker for `pyTitle`: the flag records whether the previous character was
alphabetic (i.e. whether we are inside a word). -/
def pyTitleAux : Str → Bool → Str
  | [], _ => []
  | c :: t, insideWord =>
    if c.isAlpha then
      (if insideWord then c.toLower else c.toUpper) :: pyTitleAux t true
    else
      c :: pyTitleAux t false

/-- Python `s.title()`: the first letter of every word uppercased, the other
letters lowercased. -/
def pyTitle (s : Str) : Str :=
  pyTitleAux s false

/-- Python `str.lower()` on a list of characters. -/
def lowerStr (s : Str) : Str :=
  s.map Char.toLower

/-! ### Basic lemmas about the helpers -/

theorem findSub_some_shorter {pat : Str} (hpat : pat ≠ []) :
    ∀ {s a b : Str}, findSub pat s = some (a, b) → b.length < s.length := by
  intro s
  induction s with
  | nil => intro a b h; simp [findSub] at h
  | cons c t ih =>
    intro a b h
    rw [findSub] at h
    split at h
    · have hlen : 1 ≤ pat.length := by
        cases pat with
        | nil => exact absurd rfl hpat
        | cons x xs => simp
      simp only [Option.some.injEq, Prod.mk.injEq] at h
      obtain ⟨-, hb⟩ := h
      subst hb
      simp only [List.length_drop, List.length_cons]
      omega
    · split at h
      · simp at h
      · rename_i a0 b0 hfind
        simp only [Option.some.injEq, Prod.mk.injEq] at h
        obtain ⟨-, hb⟩ := h
        have := ih hfind
        subst hb
        simp only [List.length_cons]
        omega

theorem replaceAllAux_ne_nil {pat rep : Str} (hrep : rep ≠ []) :
    ∀ (fuel : Nat) (s : Str), s ≠ [] → replaceAllAux pat rep fuel s ≠ [] := by
  intro fuel s hs
  match fuel, s with
  | _, [] => exact absurd rfl hs
  | 0, c :: t => simp [replaceAllAux]
  | fuel + 1, c :: t =>
    rw [replaceAllAux]
    by_cases hp : pat.isPrefixOf (c :: t)
    · simp only [hp, if_pos]
      intro h
      rcases List.append_eq_nil.mp h with ⟨h1, _⟩
      exact hrep h1
    · simp [hp]

theorem replaceAllSub_ne_nil {pat rep : Str} (hrep : rep ≠ []) {s : Str}
    (hs : s ≠ []) : replaceAllSub pat rep s ≠ [] := by
  rw [replaceAllSub]
  by_cases hpe : pat.isEmpty
  · simpa [hpe]
  · simp only [hpe, if_neg, Bool.false_eq_true, not_false_iff]
    exact replaceAllAux_ne_nil hrep s.length s hs

theorem replaceFirstSub_ne_nil {pat rep : Str} (hrep : rep ≠ []) {s : Str}
    (hs : s ≠ []) : replaceFirstSub pat rep s ≠ [] := by
  rw [replaceFirstSub]
  cases hfind : findSub pat s with
  | none => exact hs
  | some p =>
    obtain ⟨a, b⟩ := p
    intro h
    rcases List.append_eq_nil.mp h with ⟨h1, -⟩
    rcases List.append_eq_nil.mp h1 with ⟨-, h2⟩
    exact hrep h2

theorem splitOnAux_ne_nil (sep : Str) (fuel : Nat) (s : Str) :
    splitOnAux sep fuel s ≠ [] := by
  match fuel, s with
  | _, [] => simp [splitOnAux]
  | 0, c :: t => simp [splitOnAux]
  | fuel + 1, c :: t =>
    rw [splitOnAux]
    by_cases hp : sep.isPrefixOf (c :: t)
    · simp [hp]
    · simp only [hp]
      cases h : splitOnAux sep fuel t <;> simp

theorem splitOnAux_singleton (sep : Str) :
    ∀ (fuel : Nat) (s a : Str), splitOnAux sep fuel s = [a] → a = s := by
  intro fuel
  induction fuel with
  | zero =>
    intro s a h
    match s with
    | [] => simpa [splitOnAux] using h.symm
    | c :: t => simpa [splitOnAux] using h.symm
  | succ fuel ih =>
    intro s a h
    match s with
    | [] => simpa [splitOnAux] using h.symm
    | c :: t =>
      rw [splitOnAux] at h
      split at h
      · simp only [List.cons.injEq] at h
        exact absurd h.2 (splitOnAux_ne_nil sep fuel _)
      · split at h
        · rename_i hrec
          exact absurd hrec (splitOnAux_ne_nil sep fuel t)
        · rename_i h0 r hrec
          simp only [List.cons.injEq] at h
          obtain ⟨ha, hr⟩ := h
          subst hr
          have := ih t h0 hrec
          subst this
          exact ha.symm

theorem splitOnSub_ne_nil (sep s : Str) : splitOnSub sep s ≠ [] := by
  rw [splitOnSub]
  by_cases hpe : sep.isEmpty
  · simp [hpe]
  · simp only [hpe, Bool.false_eq_true, if_neg, not_false_iff]
    exact splitOnAux_ne_nil sep s.length s

theorem splitOnSub_singleton {sep s a : Str} (h : splitOnSub sep s = [a]) :
    a = s := by
  rw [splitOnSub] at h
  by_cases hpe : sep.isEmpty
  · simp only [hpe, if_pos] at h
    simpa using h.symm
  · simp only [hpe, Bool.false_eq_true, if_neg, not_false_iff] at h
    exact splitOnAux_singleton sep s.length s a h

/-! ## Provider-call functions (claim C3)

`AITutorialGenerator._call_deepseek_api` and `_call_openai_api`
(src/aiservices.py) and `OpenRouterService._call_openrouter_chat`
(src/openrouter_service.py) each post one chat-completion request and extract
the first completion.  The observable outcome of the network call is a
parameter; the `try`/`except` structure of the source is modelled with
`Except`, the catch-all handler consuming the error. -/

namespace ProviderCall

/-- The JSON body of a provider response, as far as the extraction code
`response.json()["choices"][0]["message"]["content"]` is concerned: either the
body decodes to an object whose "choices" key holds a list of message-content
strings, or it has any other shape (not JSON, no "choices" key, entries
without "message"/"content", ...), on which the chained subscripts raise. -/
inductive Body where
  | choices (msgs : List String) : Body
  | malformed : Body

/-- Observable outcome of `requests.post(...)`: a response carrying a status
code and a body, or a raised network exception (timeout, connection error). -/
inductive Outcome where
  | response (status : Nat) (body : Body) : Outcome
  | networkError : Outcome

/-- The subscript chain `response.json()["choices"][0]["message"]["content"]`:
yields the first completion content, or raises (an `Except.error`) when the
body is malformed or the choices list is empty. -/
def extractFirstChoice : Body → Except Unit String
  | .choices (c :: _) => .ok c
  | .choices [] => .error ()
  | .malformed => .error ()

/-- The `try` block of `AITutorialGenerator._call_deepseek_api`
(src/aiservices.py lines 214-219): post the request, and on HTTP 200 return
the extracted content; on any other status fall off the end of the `try`
block (so the function returns `None` at line 221).  An exception anywhere in
the block is an `Except.error`. -/
def call_deepseek_api_try (outcome : Outcome) : Except Unit (Option String) :=
  match outcome with
  | .networkError => .error ()
  | .response status body =>
    if status = 200 then
      match extractFirstChoice body with
      | .ok c => .ok (some c)
      | .error e => .error e
    else
      .ok none

/-- `AITutorialGenerator._call_deepseek_api` (src/aiservices.py 197-221): the
`except Exception` clause logs and swallows any exception, after which the
function returns `None`. -/
def call_deepseek_api (outcome : Outcome) : Option String :=
  match call_deepseek_api_try outcome with
  | .ok r => r
  | .error _ => none

/-- The `try` block of `AITutorialGenerator._call_openai_api`
(src/aiservices.py lines 240-245): request shape and extraction identical to
`_call_deepseek_api`, differing only in URL, key and model name, which do not
affect the modelled outcome. -/
def call_openai_api_try (outcome : Outcome) : Except Unit (Option String) :=
  match outcome with
  | .networkError => .error ()
  | .response status body =>
    if status = 200 then
      match extractFirstChoice body with
      | .ok c => .ok (some c)
      | .error e => .error e
    else
      .ok none

/-- `AITutorialGenerator._call_openai_api` (src/aiservices.py 223-247). -/
def call_openai_api (outcome : Outcome) : Option String :=
  match call_openai_api_try outcome with
  | .ok r => r
  | .error _ => none

/-- The `try` block of `OpenRouterService._call_openrouter_chat`
(src/openrouter_service.py lines 371-384): on HTTP 200 parse the body and
return the first choice content; on any other status log the error and
explicitly return `None`. -/
def call_openrouter_chat_try (outcome : Outcome) : Except Unit (Option String) :=
  match outcome with
  | .networkError => .error ()
  | .response status body =>
    if status = 200 then
      match extractFirstChoice body with
      | .ok c => .ok (some c)
      | .error e => .error e
    else
      .ok none

/-- `OpenRouterService._call_openrouter_chat` (src/openrouter_service.py
346-388): the `except Exception` clause logs and returns `None`. -/
def call_openrouter_chat (outcome : Outcome) : Option String :=
  match call_openrouter_chat_try outcome with
  | .ok r => r
  | .error _ => none

/-- Modelled from the spec (section 4.2): on HTTP 200 with a well-formed body
extract the first completion text; on any other status, malformed body, or
network exception signal failure via a null return. -/
def spec_call_provider (outcome : Outcome) : Option String :=
  match outcome with
  | .response status (.choices (c :: _)) => if status = 200 then some c else none
  | _ => none

end ProviderCall

/-- C3: for every prompt and every provider response (HTTP 200 with
well-formed body, non-200 status, malformed body, or network exception), the
provider-call functions `_call_deepseek_api`, `_call_openai_api` and
`_call_openrouter_chat` never raise to the caller (they are total
`Option`-valued functions in which the catch-all `except` consumes every
modelled exception): on HTTP 200 with a well-formed body they return the
first completion message content, and in every other case they return
`None`. -/
theorem c3_provider_calls_never_raise (outcome : ProviderCall.Outcome) :
    ProviderCall.call_deepseek_api outcome = ProviderCall.spec_call_provider outcome ∧
    ProviderCall.call_openai_api outcome = ProviderCall.spec_call_provider outcome ∧
    ProviderCall.call_openrouter_chat outcome = ProviderCall.spec_call_provider outcome := by
  refine ⟨?_, ?_, ?_⟩ <;>
  · cases outcome with
    | networkError => rfl
    | response status body =>
      rcases body with msgs | _
      · cases msgs with
        | nil =>
          by_cases h : status = 200 <;>
            simp [ProviderCall.call_deepseek_api, ProviderCall.call_deepseek_api_try,
              ProviderCall.call_openai_api, ProviderCall.call_openai_api_try,
              ProviderCall.call_openrouter_chat, ProviderCall.call_openrouter_chat_try,
              ProviderCall.extractFirstChoice, ProviderCall.spec_call_provider, h]
        | cons c r =>
          by_cases h : status = 200 <;>
            simp [ProviderCall.call_deepseek_api, ProviderCall.call_deepseek_api_try,
              ProviderCall.call_openai_api, ProviderCall.call_openai_api_try,
              ProviderCall.call_openrouter_chat, ProviderCall.call_openrouter_chat_try,
              ProviderCall.extractFirstChoice, ProviderCall.spec_call_provider, h]
      · by_cases h : status = 200 <;>
          simp [ProviderCall.call_deepseek_api, ProviderCall.call_deepseek_api_try,
            ProviderCall.call_openai_api, ProviderCall.call_openai_api_try,
            ProviderCall.call_openrouter_chat, ProviderCall.call_openrouter_chat_try,
            ProviderCall.extractFirstChoice, ProviderCall.spec_call_provider, h]

/-! ## Difficulty scores (claim C9) -/

/-- Expertise levels.  The claims take expertise ∈ {beginner, intermediate,
expert} as a precondition; the embedding folds that precondition into this
enumeration (in the source the value is a string, and the dictionary lookup
`{"beginner": 3, "intermediate": 6, "expert": 9}[expertise]` would raise on
any other string). -/
inductive Expertise where
  | beginner
  | intermediate
  | expert
deriving DecidableEq

/-- The dictionary lookup giving the base difficulty score,
`{"beginner": 3, "intermediate": 6, "expert": 9}[expertise]`. -/
def baseScore : Expertise → Int
  | .beginner => 3
  | .intermediate => 6
  | .expert => 9

/-- `AITutorialGenerator._calculate_difficulty_score` (src/aiservices.py
379-387): base 3/6/9 from the expertise, `+= 2` if the lowercased topic
mentions an advanced keyword, `elif -= 1` if it mentions a basic keyword,
then `min(10, max(1, base_score))`. -/
def ai_calculate_difficulty_score (expertise : Expertise) (topic : String) : Int :=
  let topicLower := lowerStr topic.data
  let adjusted :=
    if (["advanced", "machine learning", "neural", "bayesian", "optimization"].any
        fun w => containsSub w.data topicLower) then
      baseScore expertise + 2
    else if (["basic", "intro", "fundamentals", "getting started"].any
        fun w => containsSub w.data topicLower) then
      baseScore expertise - 1
    else
      baseScore expertise
  min 10 (max 1 adjusted)

/-- `OpenRouterService._calculate_difficulty_score`
(src/openrouter_service.py 700-711): base 3/6/9 from the expertise, `+= 1` if
the lowercased content mentions a complexity keyword, then (a second,
independent `if`) `-= 1` if it mentions a simplicity keyword, then
`min(10, max(1, base_score))`. -/
def or_calculate_difficulty_score (content : String) (expertise : Expertise) : Int :=
  let contentLower := lowerStr content.data
  let score1 :=
    if (["advanced", "complex", "optimization", "algorithm"].any
        fun w => containsSub w.data contentLower) then
      baseScore expertise + 1
    else
      baseScore expertise
  let score2 :=
    if (["simple", "basic", "introduction", "getting started"].any
        fun w => containsSub w.data contentLower) then
      score1 - 1
    else
      score1
  min 10 (max 1 score2)

/-- C9: for every content string and every expertise in {beginner,
intermediate, expert} (folded into the `Expertise` type), the difficulty
score attached to a generated result - by either of the two implementations -
is an integer between 1 and 10 inclusive, obtained as the clamp
`min 10 (max 1 adjustedScore)` of the keyword-adjusted 3/6/9 base score. -/
theorem c9_difficulty_score_between_1_and_10 (expertise : Expertise)
    (topic content : String) :
    1 ≤ ai_calculate_difficulty_score expertise topic ∧
    ai_calculate_difficulty_score expertise topic ≤ 10 ∧
    1 ≤ or_calculate_difficulty_score content expertise ∧
    or_calculate_difficulty_score content expertise ≤ 10 := by
  cases expertise <;>
    refine ⟨?_, ?_, ?_, ?_⟩ <;>
      simp only [ai_calculate_difficulty_score, or_calculate_difficulty_score,
        baseScore, min_def, max_def] <;>
      split_ifs <;> omega

/-! ## Input sanitization (claim C10)

`sanitize_input` (src/utils.py 211-224). -/

/-- Expansion of one character under Python `html.escape(s)` (with its default
`quote=True`): the stdlib performs the sequential replaces
`& -> &amp;`, `< -> &lt;`, `> -> &gt;`, `" -> &quot;`, apostrophe -> `&#x27;`.
Every pattern is a single character and no replacement introduces a character
that a later pass rewrites, so the sequential replaces expand each character
of the input independently.  `Char.ofNat 34` is the double quote and
`Char.ofNat 39` the apostrophe. -/
def htmlEscapeChar (c : Char) : Str :=
  if c = '&' then "&amp;".data
  else if c = '<' then "&lt;".data
  else if c = '>' then "&gt;".data
  else if c = Char.ofNat 34 then "&quot;".data
  else if c = Char.ofNat 39 then "&#x27;".data
  else [c]

/-- Python `html.escape` on a whole string. -/
def htmlEscape (s : Str) : Str :=
  (s.map htmlEscapeChar).flatten

/-- `sanitize_input(text, max_length)` (src/utils.py 211-224): empty (falsy)
input yields the empty string; otherwise the input is stripped and
HTML-escaped, and truncated to `max_length` characters plus a `"..."` marker
when longer than `max_length`. -/
def sanitize_input (text : String) (maxLength : Nat) : String :=
  if text.data.isEmpty then ""
  else
    let escaped := htmlEscape (stripChars text.data)
    if maxLength < escaped.length then ⟨escaped.take maxLength ++ "...".data⟩
    else ⟨escaped⟩

theorem htmlEscapeChar_no_lt (c : Char) : '<' ∉ htmlEscapeChar c := by
  unfold htmlEscapeChar
  split_ifs with h1 h2 h3 h4 h5
  · decide
  · decide
  · decide
  · decide
  · decide
  · simp only [List.mem_singleton]
    exact fun h => h2 h.symm

theorem htmlEscapeChar_no_gt (c : Char) : '>' ∉ htmlEscapeChar c := by
  unfold htmlEscapeChar
  split_ifs with h1 h2 h3 h4 h5
  · decide
  · decide
  · decide
  · decide
  · decide
  · simp only [List.mem_singleton]
    exact fun h => h3 h.symm

theorem htmlEscape_no_lt (s : Str) : '<' ∉ htmlEscape s := by
  unfold htmlEscape
  intro h
  rw [List.mem_flatten] at h
  obtain ⟨l, hl, hmem⟩ := h
  rw [List.mem_map] at hl
  obtain ⟨c, -, hc⟩ := hl
  exact htmlEscapeChar_no_lt c (hc ▸ hmem)

theorem htmlEscape_no_gt (s : Str) : '>' ∉ htmlEscape s := by
  unfold htmlEscape
  intro h
  rw [List.mem_flatten] at h
  obtain ⟨l, hl, hmem⟩ := h
  rw [List.mem_map] at hl
  obtain ⟨c, -, hc⟩ := hl
  exact htmlEscapeChar_no_gt c (hc ▸ hmem)

/-- C10: for every input string and positive maximum length,
`sanitize_input` returns a string that contains no raw angle bracket (the
HTML escaping replaces them) and whose length is at most `max_length + 3`
(the three characters of the truncation marker `"..."`); an empty (falsy)
input yields the empty string. -/
theorem c10_sanitize_input_escapes_and_bounds (text : String) (maxLength : Nat)
    (_hpos : 0 < maxLength) :
    '<' ∉ (sanitize_input text maxLength).data ∧
    '>' ∉ (sanitize_input text maxLength).data ∧
    (sanitize_input text maxLength).data.length ≤ maxLength + 3 ∧
    sanitize_input "" maxLength = "" := by
  refine ⟨?_, ?_, ?_, rfl⟩ <;>
  · rw [sanitize_input]
    by_cases hempty : text.data.isEmpty
    · simp [hempty]
    · simp only [hempty, Bool.false_eq_true, if_neg, not_false_iff]
      by_cases hlong : maxLength < (htmlEscape (stripChars text.data)).length
      · simp only [hlong, if_pos]
        first
        | · intro hmem
            rcases List.mem_append.mp hmem with hin | hin
            · exact htmlEscape_no_lt _ (List.mem_of_mem_take hin)
            · simp at hin
        | · intro hmem
            rcases List.mem_append.mp hmem with hin | hin
            · exact htmlEscape_no_gt _ (List.mem_of_mem_take hin)
            · simp at hin
        | · simp only [List.length_append, List.length_take, List.length_cons,
              List.length_nil]
            omega
      · simp only [hlong, if_neg, not_false_iff]
        first
        | exact htmlEscape_no_lt _
        | exact htmlEscape_no_gt _
        | omega

/-- Witness for C10 at a concrete input. -/
theorem c10_sanitize_input_witness :
    0 < 5 ∧
    ('<' ∉ (sanitize_input "<b>hi</b>" 5).data ∧
     '>' ∉ (sanitize_input "<b>hi</b>" 5).data ∧
     (sanitize_input "<b>hi</b>" 5).data.length ≤ 5 + 3 ∧
     sanitize_input "" 5 = "") :=
  ⟨by decide, c10_sanitize_input_escapes_and_bounds "<b>hi</b>" 5 (by decide)⟩

/-! ## Tutorial input validation (claim C6) -/

/-- The `not isinstance(duration, int) or duration < 1 or duration > 60` test
of `validate_tutorial_input`: the duration arrives from
`request.form.get("duration", type=int)` and is `None` (here `none`) when the
field is absent or unparseable. -/
def durationInvalid : Option Int → Bool
  | none => true
  | some d => decide (d < 1) || decide (d > 60)

/-- `validate_tutorial_input(topic, expertise, duration)` (src/utils.py
226-257), returning the `(is_valid, error_message)` pair. -/
def validate_tutorial_input (topic expertise : String) (duration : Option Int) :
    Bool × Option String :=
  if topic.data.isEmpty ∨ (stripChars topic.data).length < 2 then
    (false, some "Topic must be at least 2 characters long")
  else if expertise ∉ (["beginner", "intermediate", "expert"] : List String) then
    (false, some "Invalid expertise level. Must be \x27beginner\x27, \x27intermediate\x27, or \x27expert\x27")
  else if durationInvalid duration then
    (false, some "Duration must be between 1 and 60 minutes")
  else if 300 < (stripChars topic.data).length then
    (false, some "Topic must be less than 300 characters")
  else if (["<script", "javascript:"] : List String).any
      (fun p => containsSub p.data (lowerStr topic.data)) then
    (false, some "Topic contains invalid characters")
  else
    (true, none)

/-- Outcome of the input-handling prefix of the `generate_tutorial` route
(src/routes.py 296-311): either the 400 error response produced when
validation fails, or entry into the generation pipeline with the capped
duration `min(duration, 60)`. -/
inductive GenerateTutorialStep where
  | badRequest (error : String) : GenerateTutorialStep
  | pipeline (topic expertise : String) (maxDuration : Int) : GenerateTutorialStep

/-- The validation gate of `generate_tutorial` (src/routes.py 296-311): the
raw topic is sanitized with `sanitize_input(topic, 200)`, the inputs are
validated, and the generation pipeline is entered only when validation
succeeds.  The `(true, _), none` branch is unreachable because validation
rejects a missing duration. -/
def generate_tutorial_gate (rawTopic expertise : String) (duration : Option Int) :
    GenerateTutorialStep :=
  let topic := sanitize_input rawTopic 200
  match validate_tutorial_input topic expertise duration, duration with
  | (true, _), some d => .pipeline topic expertise (min d 60)
  | (true, _), none => .badRequest ""
  | (false, err), _ => .badRequest (err.getD "")

theorem validate_none_duration_fails (topic expertise : String) :
    (validate_tutorial_input topic expertise none).1 = false := by
  rw [validate_tutorial_input]
  split_ifs with h1 h2 h3 <;> first | rfl | (exact absurd rfl h3)

/-- C6: `validate_tutorial_input` rejects any request whose duration is 0,
negative, or greater than 60 (or missing), returning invalid together with an
error message; with an otherwise valid topic and expertise it accepts
duration exactly 1 and exactly 60; and the `generate_tutorial` route enters
the generation pipeline exactly when this validation succeeds. -/
theorem c6_duration_validation (topic expertise : String)
    (htopic : 2 ≤ (stripChars topic.data).length ∧
      (stripChars topic.data).length ≤ 300 ∧
      (["<script", "javascript:"] : List String).any
        (fun p => containsSub p.data (lowerStr topic.data)) = false)
    (hexp : expertise ∈ (["beginner", "intermediate", "expert"] : List String)) :
    (∀ (t e : String) (d : Int), d < 1 ∨ 60 < d →
      (validate_tutorial_input t e (some d)).1 = false ∧
      (validate_tutorial_input t e (some d)).2.isSome = true) ∧
    (validate_tutorial_input topic expertise (some 1)).1 = true ∧
    (validate_tutorial_input topic expertise (some 60)).1 = true ∧
    (∀ (t e : String) (dur : Option Int),
      (∃ tp ex md, generate_tutorial_gate t e dur = .pipeline tp ex md) ↔
        (validate_tutorial_input (sanitize_input t 200) e dur).1 = true) := by
  obtain ⟨hlen2, hlen300, hsusp⟩ := htopic
  have hne : topic.data ≠ [] := by
    intro h
    rw [h] at hlen2
    simp [stripChars] at hlen2
  have haccept : ∀ d : Int, 1 ≤ d → d ≤ 60 →
      (validate_tutorial_input topic expertise (some d)).1 = true := by
    intro d hd1 hd60
    rw [validate_tutorial_input]
    rw [if_neg (by
      rintro (h | h)
      · exact hne (List.isEmpty_iff.mp h)
      · omega)]
    rw [if_neg (not_not_intro hexp)]
    rw [if_neg (by
      simp only [durationInvalid, Bool.or_eq_true, decide_eq_true_eq]
      push_neg
      omega)]
    rw [if_neg (by omega)]
    rw [if_neg (by simp [hsusp])]
  refine ⟨?_, ?_, ?_, ?_⟩
  · intro t e d hd
    rw [validate_tutorial_input]
    split_ifs with h1 h2 h3 <;> first
      | exact ⟨rfl, rfl⟩
      | · exfalso
          apply h3
          simp only [durationInvalid, Bool.or_eq_true, decide_eq_true_eq]
          omega
  · exact haccept 1 (by omega) (by omega)
  · exact haccept 60 (by omega) (by omega)
  · intro t e dur
    constructor
    · rintro ⟨tp, ex, md, hstep⟩
      simp only [generate_tutorial_gate] at hstep
      cases hveq : validate_tutorial_input (sanitize_input t 200) e dur with
      | mk b err =>
        rw [hveq] at hstep
        cases b with
        | false => cases dur <;> simp at hstep
        | true =>
          cases dur with
          | none => simp at hstep
          | some d => rfl
    · intro hv1
      cases dur with
      | none =>
        have hv := validate_none_duration_fails (sanitize_input t 200) e
        rw [hv] at hv1
        exact absurd hv1 (by decide)
      | some d =>
        refine ⟨sanitize_input t 200, e, min d 60, ?_⟩
        simp only [generate_tutorial_gate]
        cases hveq : validate_tutorial_input (sanitize_input t 200) e (some d) with
        | mk b err =>
          rw [hveq] at hv1
          cases b with
          | false => simp at hv1
          | true => rfl

/-- Witness for C6 at concrete inputs. -/
theorem c6_duration_validation_witness :
    (2 ≤ (stripChars "Data Structures".data).length ∧
      (stripChars "Data Structures".data).length ≤ 300 ∧
      (["<script", "javascript:"] : List String).any
        (fun p => containsSub p.data (lowerStr "Data Structures".data)) = false) ∧
    "beginner" ∈ (["beginner", "intermediate", "expert"] : List String) ∧
    ((validate_tutorial_input "Data Structures" "beginner" (some 0)).1 = false ∧
      (validate_tutorial_input "Data Structures" "beginner" (some 0)).2.isSome = true) ∧
    (validate_tutorial_input "Data Structures" "beginner" (some 1)).1 = true ∧
    (validate_tutorial_input "Data Structures" "beginner" (some 60)).1 = true := by
  have h := c6_duration_validation "Data Structures" "beginner"
    ⟨by decide, by decide, by decide⟩ (by decide)
  exact ⟨⟨by decide, by decide, by decide⟩, by decide,
    h.1 "Data Structures" "beginner" 0 (Or.inl (by decide)), h.2.1, h.2.2.1⟩

/-! ## Audio generation endpoint (claim C4)

The WAV-to-MP3 transcoding tail of the `generate_audio` route
(src/routes.py 481-546).  The local speech engine has already written the WAV
file; the observable outcomes of the filesystem and codec interactions are
parameters: whether the `pydub` import succeeds, what `pydub.utils.which`
returns for each tool, which hardcoded candidate paths exist, whether the
`AudioSegment` export completes without raising, and whether the MP3 file
exists afterwards. -/

/-- The hardcoded Windows fallback locations probed for ffmpeg
(src/routes.py 494-498). -/
def ffmpegCandidates : List String :=
  ["C:\\ffmpeg\\bin\\ffmpeg.exe",
   "C:\\Program Files\\ffmpeg\\bin\\ffmpeg.exe",
   "C:\\Program Files (x86)\\ffmpeg\\bin\\ffmpeg.exe"]

/-- The hardcoded Windows fallback locations probed for ffprobe
(src/routes.py 504-508). -/
def ffprobeCandidates : List String :=
  ["C:\\ffmpeg\\bin\\ffprobe.exe",
   "C:\\Program Files\\ffmpeg\\bin\\ffprobe.exe",
   "C:\\Program Files (x86)\\ffmpeg\\bin\\ffprobe.exe"]

/-- Tool discovery (src/routes.py 489-512): take the `pydub.utils.which`
result when non-null, otherwise the first existing candidate path (the `for`
loop with `break`), otherwise none. -/
def locateTool (whichResult : Option String) (candidates : List String)
    (fileExists : String → Bool) : Option String :=
  match whichResult with
  | some p => some p
  | none => candidates.find? fileExists

/-- The `mp3_conversion_success` flag (src/routes.py 482-524): it becomes true
only when the `pydub` import succeeds, both tools are located, and the export
completes; an `ImportError` or any conversion exception is caught and leaves
the flag false. -/
def mp3ConversionSuccess (pydubOk : Bool) (whichFfmpeg whichFfprobe : Option String)
    (fileExists : String → Bool) (exportOk : Bool) : Bool :=
  if pydubOk then
    match locateTool whichFfmpeg ffmpegCandidates fileExists,
        locateTool whichFfprobe ffprobeCandidates fileExists with
    | some _, some _ => exportOk
    | _, _ => false
  else false

/-- The served audio artifact: URL, container format and user message. -/
structure AudioServeResult where
  audio_url : String
  format : String
  message : String
deriving DecidableEq

/-- The serve decision of `generate_audio` (src/routes.py 526-546): the MP3
file is served only when `mp3_conversion_success and mp3_path.exists()`;
otherwise the WAV written by the local engine is served and the `format`
field says so. -/
def generate_audio_result (baseId : String) (pydubOk : Bool)
    (whichFfmpeg whichFfprobe : Option String) (fileExists : String → Bool)
    (exportOk mp3Exists : Bool) : AudioServeResult :=
  let wavName := "tts_" ++ baseId ++ ".wav"
  let mp3Name := "tts_" ++ baseId ++ ".mp3"
  if mp3ConversionSuccess pydubOk whichFfmpeg whichFfprobe fileExists exportOk
      && mp3Exists then
    { audio_url := "/static/generated_audio/" ++ mp3Name,
      format := "mp3",
      message := "Audio generated successfully as MP3!" }
  else
    { audio_url := "/static/generated_audio/" ++ wavName,
      format := "wav",
      message := "Audio generated as WAV (MP3 conversion not available)." }

/-- C4: when the local speech engine succeeds but the codec tool cannot be
located (ffmpeg or ffprobe lookup yields none) or the conversion step fails,
the returned artifact has `format = "wav"` and its URL points to the WAV
file, not the requested MP3; when both tools are located and the conversion
succeeds (producing the MP3 file), `format = "mp3"`. -/
theorem c4_audio_format_reflects_codec_availability (baseId : String)
    (pydubOk : Bool) (whichFfmpeg whichFfprobe : Option String)
    (fileExists : String → Bool) (exportOk mp3Exists : Bool) :
    ((locateTool whichFfmpeg ffmpegCandidates fileExists = none ∨
      locateTool whichFfprobe ffprobeCandidates fileExists = none ∨
      exportOk = false) →
      (generate_audio_result baseId pydubOk whichFfmpeg whichFfprobe fileExists
        exportOk mp3Exists).format = "wav" ∧
      (generate_audio_result baseId pydubOk whichFfmpeg whichFfprobe fileExists
        exportOk mp3Exists).audio_url =
        "/static/generated_audio/" ++ ("tts_" ++ baseId ++ ".wav")) ∧
    (pydubOk = true →
      (locateTool whichFfmpeg ffmpegCandidates fileExists).isSome = true →
      (locateTool whichFfprobe ffprobeCandidates fileExists).isSome = true →
      exportOk = true → mp3Exists = true →
      (generate_audio_result baseId pydubOk whichFfmpeg whichFfprobe fileExists
        exportOk mp3Exists).format = "mp3") := by
  constructor
  · intro h
    have hfail : mp3ConversionSuccess pydubOk whichFfmpeg whichFfprobe fileExists
        exportOk = false := by
      rw [mp3ConversionSuccess]
      cases pydubOk with
      | false => simp
      | true =>
        cases hm1 : locateTool whichFfmpeg ffmpegCandidates fileExists with
        | none => simp
        | some p1 =>
          cases hm2 : locateTool whichFfprobe ffprobeCandidates fileExists with
          | none => simp
          | some p2 =>
            rcases h with h | h | h
            · rw [hm1] at h
              exact absurd h (by simp)
            · rw [hm2] at h
              exact absurd h (by simp)
            · simpa using h
    rw [generate_audio_result, hfail]
    exact ⟨rfl, rfl⟩
  · intro hp hf1 hf2 he hm
    obtain ⟨p1, hp1⟩ := Option.isSome_iff_exists.mp hf1
    obtain ⟨p2, hp2⟩ := Option.isSome_iff_exists.mp hf2
    rw [generate_audio_result]
    have hsucc : mp3ConversionSuccess pydubOk whichFfmpeg whichFfprobe fileExists
        exportOk = true := by
      rw [mp3ConversionSuccess, hp, if_pos rfl, hp1, hp2]
      exact he
    simp [hsucc, hm]

/-- Witness for C4: both branches at concrete inputs (codec lookup failing
everywhere; codec found on the PATH with a successful export). -/
theorem c4_audio_format_witness :
    (generate_audio_result "abc123" true none none (fun _ => false) true true).format
      = "wav" ∧
    (generate_audio_result "abc123" true (some "/usr/bin/ffmpeg")
      (some "/usr/bin/ffprobe") (fun _ => false) true true).format = "mp3" :=
  ⟨((c4_audio_format_reflects_codec_availability "abc123" true none none
      (fun _ => false) true true).1 (Or.inl rfl)).1,
   (c4_audio_format_reflects_codec_availability "abc123" true
      (some "/usr/bin/ffmpeg") (some "/usr/bin/ffprobe") (fun _ => false)
      true true).2 rfl rfl rfl rfl rfl⟩

/-! ## Comprehensive prompt builder (claim C8)

`AITutorialGenerator._create_comprehensive_prompt` (src/aiservices.py
139-195).  The source computes the section allocations with Python float
literals (0.15, 0.50, 0.25, 0.10); on the validated duration domain 1..60
every product `duration*60*p` is an exact small integer, and the float
computation agrees exactly with rational arithmetic (checked exhaustively
over the domain), so the embedding uses `ℚ`. -/

/-- The string representation of an `Expertise` value in the source. -/
def Expertise.toStr : Expertise → String
  | .beginner => "beginner"
  | .intermediate => "intermediate"
  | .expert => "expert"

/-- The `topic_data` dictionary threaded through `AITutorialGenerator`
(produced by `_get_topic_data`): concepts, code examples, packages and
learning objectives for the topic. -/
structure TopicData where
  concepts : List String
  code_examples : List String
  packages : List String
  learning_objectives : List String

/-- Python `int(x)` on a number: truncation toward zero. -/
def pyInt (q : ℚ) : ℤ :=
  if 0 ≤ q then ⌊q⌋ else -⌊-q⌋

/-- `intro_seconds = min(60, total_seconds * 0.15)` (src/aiservices.py 143):
15 percent of the total seconds, capped at 60 seconds. -/
def intro_seconds (duration : ℤ) : ℚ :=
  min 60 ((duration * 60 : ℚ) * (15 / 100))

/-- `core_seconds = total_seconds * 0.50` (src/aiservices.py 144). -/
def core_seconds (duration : ℤ) : ℚ :=
  (duration * 60 : ℚ) * (50 / 100)

/-- `examples_seconds = total_seconds * 0.25` (src/aiservices.py 145). -/
def examples_seconds (duration : ℤ) : ℚ :=
  (duration * 60 : ℚ) * (25 / 100)

/-- `summary_seconds = total_seconds * 0.10` (src/aiservices.py 146). -/
def summary_seconds (duration : ℤ) : ℚ :=
  (duration * 60 : ℚ) * (10 / 100)

/-- `AITutorialGenerator._create_comprehensive_prompt` (src/aiservices.py
139-195): the prompt f-string, with the `int(...)` section allocations
embedded. -/
def create_comprehensive_prompt (topic : String) (expertise : Expertise)
    (duration : ℤ) (topicData : TopicData) : String :=
  "Create a comprehensive " ++ toString duration
    ++ "-minute R programming tutorial on \"" ++ topic ++ "\" for "
    ++ expertise.toStr ++ " level users.\n\n**Tutorial Structure:**\n1. Introduction and Overview ("
    ++ toString (pyInt (intro_seconds duration))
    ++ " seconds)\n   - Hook the audience with real-world relevance\n   - Clear learning objectives\n   - Prerequisites and setup\n\n2. Core Concepts Deep Dive ("
    ++ toString (pyInt (core_seconds duration))
    ++ " seconds)\n   - Detailed explanations with visual metaphors\n   - Key concepts: "
    ++ String.intercalate ", " topicData.concepts
    ++ "\n   - Theory to practice connections\n   - Common misconceptions and clarifications\n\n3. Hands-On Code Examples ("
    ++ toString (pyInt (examples_seconds duration))
    ++ " seconds)\n   - Multiple practical examples with detailed comments\n   - Progressive difficulty building\n   - Real-world applications and use cases\n   - Relevant packages: "
    ++ String.intercalate ", " topicData.packages
    ++ "\n   - Debugging and troubleshooting tips\n\n4. Summary and Advanced Tips ("
    ++ toString (pyInt (summary_seconds duration))
    ++ " seconds)\n   - Key takeaways and recap\n   - Pro tips and advanced techniques\n   - Next steps for continued learning\n   - Resources and further reading\n\n**Content Requirements:**\n- Write in a conversational, engaging style\n- Include natural pauses [PAUSE] for reflection\n- Add emphasis markers [EMPHASIS] for key points\n- Include code execution markers [EXECUTE] for hands-on practice\n- Provide troubleshooting sections [TROUBLESHOOT]\n- Add best practices callouts [BEST_PRACTICE]\n- Include real-world examples [REAL_WORLD]\n\n**Quality Standards:**\n- Accuracy: All code must be syntactically correct\n- Clarity: Explain complex concepts in simple terms\n- Engagement: Use analogies and real-world connections\n- Practicality: Focus on immediately applicable skills\n- Progression: Build knowledge systematically\n\nTarget Audience: "
    ++ (⟨pyCapitalize expertise.toStr.data⟩ : String)
    ++ " level R programmers seeking practical, actionable knowledge.\n\nMake this tutorial comprehensive, engaging, and immediately useful for learners."

theorem pyInt_intCast (k : ℤ) : pyInt (k : ℚ) = k := by
  unfold pyInt
  split_ifs with h
  · exact_mod_cast Int.floor_intCast k
  · have : -((k : ℚ)) = ((-k : ℤ) : ℚ) := by push_cast; ring
    rw [this]
    rw [Int.floor_intCast]
    ring

/-- Counterexample to C8: for `duration = 10` the introduction allocation
embedded in the prompt by `_create_comprehensive_prompt` is 60 seconds (the
`min(60, ...)` cap), not `round(duration*60*0.15) = 90` as the claim states. -/
theorem c8_intro_allocation_counterexample :
    pyInt (intro_seconds 10) = 60 ∧
    (round (((10 : ℚ) * 60) * (15 / 100)) : ℤ) = 90 ∧
    pyInt (intro_seconds 10) ≠ (round (((10 : ℚ) * 60) * (15 / 100)) : ℤ) := by
  have h1 : intro_seconds 10 = ((60 : ℤ) : ℚ) := by
    unfold intro_seconds
    rw [min_eq_left (by norm_num)]
    norm_num
  have h2 : pyInt (intro_seconds 10) = 60 := by rw [h1, pyInt_intCast]
  refine ⟨h2, ?_, ?_⟩
  · norm_num
  · rw [h2]
    norm_num

/-- C8 as amended: for every duration in [1, 60] the prompt builder computes
the section allocations as exact percentages 15/50/25/10 of the total
duration in seconds (all exact integers, so rounding and truncation agree),
except that the introduction allocation is additionally capped at 60
seconds: it equals `min 60 (round(duration*60*0.15))`, and each computed
allocation appears verbatim in the prompt string. -/
theorem c8_section_allocations (topic : String) (expertise : Expertise)
    (td : TopicData) (d : ℤ) (_h1 : 1 ≤ d) (_h60 : d ≤ 60) :
    pyInt (intro_seconds d) = min 60 (9 * d) ∧
    pyInt (core_seconds d) = 30 * d ∧
    pyInt (examples_seconds d) = 15 * d ∧
    pyInt (summary_seconds d) = 6 * d ∧
    (∃ pre post : String,
      create_comprehensive_prompt topic expertise d td =
        pre ++ (toString (pyInt (intro_seconds d)) ++ post)) := by
  refine ⟨?_, ?_, ?_, ?_, ?_⟩
  · have h : intro_seconds d = ((min 60 (9 * d) : ℤ) : ℚ) := by
      unfold intro_seconds
      have harg : ((d * 60 : ℚ)) * (15 / 100) = ((9 * d : ℤ) : ℚ) := by
        push_cast
        ring
      rw [harg]
      push_cast
      rfl
    rw [h, pyInt_intCast]
  · have h : core_seconds d = ((30 * d : ℤ) : ℚ) := by
      unfold core_seconds
      push_cast
      ring
    rw [h, pyInt_intCast]
  · have h : examples_seconds d = ((15 * d : ℤ) : ℚ) := by
      unfold examples_seconds
      push_cast
      ring
    rw [h, pyInt_intCast]
  · have h : summary_seconds d = ((6 * d : ℤ) : ℚ) := by
      unfold summary_seconds
      push_cast
      ring
    rw [h, pyInt_intCast]
  · refine ⟨"Create a comprehensive " ++ toString d
      ++ "-minute R programming tutorial on \"" ++ topic ++ "\" for "
      ++ expertise.toStr
      ++ " level users.\n\n**Tutorial Structure:**\n1. Introduction and Overview (",
      ?_, ?_⟩
    · exact " seconds)\n   - Hook the audience with real-world relevance\n   - Clear learning objectives\n   - Prerequisites and setup\n\n2. Core Concepts Deep Dive ("
        ++ toString (pyInt (core_seconds d))
        ++ " seconds)\n   - Detailed explanations with visual metaphors\n   - Key concepts: "
        ++ String.intercalate ", " td.concepts
        ++ "\n   - Theory to practice connections\n   - Common misconceptions and clarifications\n\n3. Hands-On Code Examples ("
        ++ toString (pyInt (examples_seconds d))
        ++ " seconds)\n   - Multiple practical examples with detailed comments\n   - Progressive difficulty building\n   - Real-world applications and use cases\n   - Relevant packages: "
        ++ String.intercalate ", " td.packages
        ++ "\n   - Debugging and troubleshooting tips\n\n4. Summary and Advanced Tips ("
        ++ toString (pyInt (summary_seconds d))
        ++ " seconds)\n   - Key takeaways and recap\n   - Pro tips and advanced techniques\n   - Next steps for continued learning\n   - Resources and further reading\n\n**Content Requirements:**\n- Write in a conversational, engaging style\n- Include natural pauses [PAUSE] for reflection\n- Add emphasis markers [EMPHASIS] for key points\n- Include code execution markers [EXECUTE] for hands-on practice\n- Provide troubleshooting sections [TROUBLESHOOT]\n- Add best practices callouts [BEST_PRACTICE]\n- Include real-world examples [REAL_WORLD]\n\n**Quality Standards:**\n- Accuracy: All code must be syntactically correct\n- Clarity: Explain complex concepts in simple terms\n- Engagement: Use analogies and real-world connections\n- Practicality: Focus on immediately applicable skills\n- Progression: Build knowledge systematically\n\nTarget Audience: "
        ++ (⟨pyCapitalize expertise.toStr.data⟩ : String)
        ++ " level R programmers seeking practical, actionable knowledge.\n\nMake this tutorial comprehensive, engaging, and immediately useful for learners."
    · show create_comprehensive_prompt topic expertise d td = _
      rw [create_comprehensive_prompt]
      simp only [String.append_assoc]

/-- Witness for C8 (amended) at duration 10 and concrete topic data. -/
theorem c8_section_allocations_witness :
    (1 : ℤ) ≤ 10 ∧ (10 : ℤ) ≤ 60 ∧
    (pyInt (intro_seconds 10) = min 60 (9 * 10) ∧
     pyInt (core_seconds 10) = 30 * 10 ∧
     pyInt (examples_seconds 10) = 15 * 10 ∧
     pyInt (summary_seconds 10) = 6 * 10 ∧
     (∃ pre post : String,
       create_comprehensive_prompt "Data Structures" Expertise.beginner 10
           ⟨["vectors"], ["# example"], ["base"], ["learn"]⟩ =
         pre ++ (toString (pyInt (intro_seconds 10)) ++ post))) :=
  ⟨by norm_num, by norm_num,
   c8_section_allocations "Data Structures" Expertise.beginner
     ⟨["vectors"], ["# example"], ["base"], ["learn"]⟩ 10
     (by norm_num) (by norm_num)⟩

/-! ## Provider dispatch in the tutorial generator (claim C2)

`AITutorialGenerator._generate_ai_script` (src/aiservices.py 113-137) and the
local template `_generate_enhanced_script` (lines 249-324) it falls back to.
The prompt built by `_create_comprehensive_prompt` only feeds the provider
call, whose observable outcome is a parameter here. -/

/-- The default branch of `AITutorialGenerator._get_topic_data`
(src/aiservices.py 88-111): topic data used when the content pool has no
matching topic.  The Python `dict.get(expertise, default)` lookups always hit
because the expertise precondition is folded into the `Expertise` type. -/
def default_topic_data (topic : String) (expertise : Expertise) : TopicData where
  concepts :=
    match expertise with
    | .beginner => ["fundamental concepts", "basic syntax", "practical examples",
        "step-by-step approach"]
    | .intermediate => ["advanced techniques", "best practices",
        "real-world applications", "optimization"]
    | .expert => ["advanced concepts", "optimization", "complex implementations",
        "cutting-edge techniques"]
  code_examples :=
    ["# " ++ topic ++ " - " ++ expertise.toStr
      ++ " level tutorial\n# Comprehensive R examples\nlibrary(tidyverse)\n\n# Your "
      ++ topic ++ " journey starts here!"]
  packages :=
    match expertise with
    | .beginner => ["base", "utils"]
    | .intermediate => ["base", "dplyr", "ggplot2"]
    | .expert => ["base", "tidyverse", "advanced packages"]
  learning_objectives :=
    ["Master " ++ topic ++ " fundamentals",
     "Implement " ++ topic ++ " in real projects",
     "Apply " ++ topic ++ " best practices",
     "Troubleshoot common " ++ topic ++ " issues"]

/-- `AITutorialGenerator._generate_enhanced_script` (src/aiservices.py
249-324): the deterministic local template used when no AI provider
delivers content.  The f-string is transcribed verbatim (`\x27` is the
apostrophe; the three characters `âœ“` are the mojibake
check-mark present in the source). -/
def generate_enhanced_script (topic : String) (expertise : Expertise)
    (duration : ℤ) (topicData : TopicData) : String :=
  "# R Tutorial: " ++ topic ++ " ("
    ++ (⟨pyTitle expertise.toStr.data⟩ : String)
    ++ " Level)\n\n[PAUSE] Welcome to this comprehensive " ++ toString duration
    ++ "-minute tutorial on " ++ topic
    ++ "! \n\n## Learning Objectives\nBy the end of this tutorial, you\x27ll be able to:\n"
    ++ String.intercalate "\n" (topicData.learning_objectives.map (fun obj => "- " ++ obj))
    ++ "\n\n[PAUSE] Let\x27s dive into the fascinating world of " ++ topic
    ++ "!\n\n## Core Concepts\n\n[EMPHASIS] Key concepts we\x27ll explore today:\n"
    ++ String.intercalate "\n" (topicData.concepts.map (fun concept =>
        "- **" ++ (⟨pyTitle concept.data⟩ : String) ++ "**: Essential for mastering "
          ++ topic))
    ++ "\n\n[PAUSE] These concepts form the foundation of effective " ++ topic
    ++ " usage in R.\n\n## Hands-On Examples\n\n[EXECUTE] Let\x27s start with practical code examples:\n\n```r\n"
    ++ (match topicData.code_examples with
        | e :: _ => e
        | [] => "# " ++ topic ++ " practical example\n# Step-by-step implementation")
    ++ "\n```\n\n[BEST_PRACTICE] **Pro Tip**: Always comment your code for better maintainability and team collaboration.\n\n[TROUBLESHOOT] **Common Issues**:\n- Ensure all required packages are installed\n- Check data types and structure\n- Verify column names and case sensitivity\n\n## R Packages Used\n\n[EMPHASIS] Essential packages for "
    ++ topic ++ ":\n"
    ++ String.intercalate "\n" (topicData.packages.map (fun pkg =>
        "- **" ++ pkg ++ "**: Core functionality for " ++ topic))
    ++ "\n\n[EXECUTE] Install packages if needed:\n```r\ninstall.packages(c("
    ++ String.intercalate ", " (topicData.packages.map (fun pkg => "\"" ++ pkg ++ "\""))
    ++ "))\n```\n\n## Real-World Applications\n\n[REAL_WORLD] " ++ topic
    ++ " is widely used in:\n- Data analysis and visualization\n- Statistical modeling and inference\n- Business intelligence and reporting\n- Research and academic studies\n\n## Advanced Techniques\n\n[EMPHASIS] For "
    ++ expertise.toStr
    ++ " level practitioners:\n- Optimize performance with vectorized operations\n- Implement error handling and validation\n- Create reusable functions and workflows\n- Document your analysis thoroughly\n\n## Summary and Next Steps\n\n[PAUSE] Congratulations! You\x27ve learned the essentials of "
    ++ topic ++ " in R.\n\n**Key takeaways:**\n"
    ++ String.intercalate "\n" ((topicData.concepts.take 3).map (fun concept =>
        "âœ“ " ++ concept))
    ++ "\n\n**Continue your learning journey:**\n- Practice with real datasets\n- Explore advanced "
    ++ topic ++ " techniques\n- Join R communities and forums\n- Build projects using "
    ++ topic ++ "\n\n[EMPHASIS] Remember: The best way to master " ++ topic
    ++ " is through consistent practice and real-world application!\n\nThank you for learning with R Tutor Pro - where every concept becomes clear and actionable!"

/-- A run of `_generate_ai_script`: which providers were actually called (in
order) and the returned script. -/
structure AiScriptRun where
  attempted : List String
  script : String

/-- `AITutorialGenerator._generate_ai_script` (src/aiservices.py 113-137).
The key booleans model `self.deepseek_key` / `self.openai_key` truthiness
(non-empty environment strings); the call outcomes are parameters.  The
source dispatches with `if self.deepseek_key: ... elif self.openai_key: ...`,
so OpenAI is consulted only when the DeepSeek key is NOT configured, and
`if response: return response` treats both `None` and an empty string as
failure, falling through to the local `_generate_enhanced_script` template. -/
def generate_ai_script (deepseekKey openaiKey : Bool)
    (deepseekResponse openaiResponse : Option String) (topic : String)
    (expertise : Expertise) (duration : ℤ) (topicData : TopicData) : AiScriptRun :=
  if deepseekKey then
    match deepseekResponse with
    | some r =>
      if r = "" then
        ⟨["deepseek"], generate_enhanced_script topic expertise duration topicData⟩
      else ⟨["deepseek"], r⟩
    | none =>
      ⟨["deepseek"], generate_enhanced_script topic expertise duration topicData⟩
  else if openaiKey then
    match openaiResponse with
    | some r =>
      if r = "" then
        ⟨["openai"], generate_enhanced_script topic expertise duration topicData⟩
      else ⟨["openai"], r⟩
    | none =>
      ⟨["openai"], generate_enhanced_script topic expertise duration topicData⟩
  else
    ⟨[], generate_enhanced_script topic expertise duration topicData⟩

/-- C2 (code bug): with both provider keys configured, when the primary
provider (DeepSeek) returns null while the secondary (OpenAI) would have
returned content, `_generate_ai_script` never attempts the configured
secondary provider and returns the local template instead - the `elif`
dispatch contradicts the stated fallback order. -/
theorem c2_elif_skips_configured_secondary_provider :
    (generate_ai_script true true none (some "OpenAI tutorial text")
        "Data Structures" Expertise.beginner 5
        (default_topic_data "Data Structures" Expertise.beginner)).attempted
      = ["deepseek"] ∧
    "openai" ∉ (generate_ai_script true true none (some "OpenAI tutorial text")
        "Data Structures" Expertise.beginner 5
        (default_topic_data "Data Structures" Expertise.beginner)).attempted ∧
    (generate_ai_script true true none (some "OpenAI tutorial text")
        "Data Structures" Expertise.beginner 5
        (default_topic_data "Data Structures" Expertise.beginner)).script
      = generate_enhanced_script "Data Structures" Expertise.beginner 5
          (default_topic_data "Data Structures" Expertise.beginner) ∧
    (generate_ai_script true true none (some "OpenAI tutorial text")
        "Data Structures" Expertise.beginner 5
        (default_topic_data "Data Structures" Expertise.beginner)).script
      ≠ "OpenAI tutorial text" := by
  refine ⟨rfl, by decide, rfl, ?_⟩
  intro h
  have hd := congrArg (fun s => s.data.take 1) h
  simp only at hd
  revert hd
  decide

/-! ## Speech-text normalizer (claim C5)

`_prepare_text_for_audio` (src/routes.py 25-90): a ten-step sequence of
regex substitutions and string replaces.  Each literal `re` pattern of the
source is implemented as an explicit scan with the same leftmost,
non-overlapping semantics; `re.MULTILINE` anchors are handled by walking the
text line start by line start, resuming mid-line after a match exactly as
`re.sub` resumes scanning at the match end. -/

/-- The backtick character (code 96), which cannot appear as a character
literal here. -/
def backtick : Char := Char.ofNat 96

/-- One anchored match attempt at a line start for a `re.MULTILINE` pattern:
the replacement text, whether the match ended immediately after a newline
(in which case the scan resumes at a line start), and the remaining input. -/
structure MlMatch where
  replacement : Str
  endsAtLineStart : Bool
  rest : Str

/-- Driver for a `re.sub(pattern, repl, text, flags=re.MULTILINE)` whose
pattern is anchored with `^`: try the match at the current line start;
afterwards (or when there is no match) copy the rest of the current line and
continue at the next line start.  The fuel only makes the recursion
structural; every iteration consumes at least one character, so
`length + 1` fuel always suffices. -/
def mlPass (attempt : Str → Option MlMatch) : Nat → Str → Str
  | 0, s => s
  | fuel + 1, s =>
    match s with
    | [] => []
    | _ :: _ =>
      match attempt s with
      | some m =>
        if m.endsAtLineStart then
          m.replacement ++ mlPass attempt fuel m.rest
        else
          m.replacement ++
            (let line := m.rest.takeWhile (fun c => c ≠ '\n')
             match m.rest.drop line.length with
             | [] => line
             | _ :: r => line ++ '\n' :: mlPass attempt fuel r)
      | none =>
        let line := s.takeWhile (fun c => c ≠ '\n')
        match s.drop line.length with
        | [] => line
        | _ :: r => line ++ '\n' :: mlPass attempt fuel r

/-- Step 1 pattern: one attempt of `^#{1,6}\s+` (replacement empty).  A run
of more than six hashes can never match (the mandatory whitespace would have
to overlap a hash), and the greedy `\s+` takes the maximal whitespace run,
which may span newlines. -/
def headerAttempt (s : Str) : Option MlMatch :=
  let hashes := s.takeWhile (fun c => c = '#')
  if 1 ≤ hashes.length ∧ hashes.length ≤ 6 then
    let afterHashes := s.drop hashes.length
    let ws := afterHashes.takeWhile Char.isWhitespace
    if ws.isEmpty then none
    else some ⟨[], decide (ws.getLast? = some '\n'), afterHashes.drop ws.length⟩
  else none

/-- Step 4a pattern: one attempt of `^\s*[-*+]\s+` with replacement a bullet
character and a space.  The greedy `\s*` takes the maximal whitespace run (a
shorter run would end on a whitespace character, which is not a bullet), then
a bullet character, then a non-empty maximal whitespace run. -/
def bulletAttempt (s : Str) : Option MlMatch :=
  let ws1 := s.takeWhile Char.isWhitespace
  match s.drop ws1.length with
  | c :: rest1 =>
    if c = '-' ∨ c = '*' ∨ c = '+' then
      let ws2 := rest1.takeWhile Char.isWhitespace
      if ws2.isEmpty then none
      else some ⟨"• ".data, decide (ws2.getLast? = some '\n'), rest1.drop ws2.length⟩
    else none
  | [] => none

/-- Step 4b pattern: one attempt of `^\s*\d+\.\s+` (replacement empty). -/
def numberedAttempt (s : Str) : Option MlMatch :=
  let ws1 := s.takeWhile Char.isWhitespace
  let after1 := s.drop ws1.length
  let digits := after1.takeWhile Char.isDigit
  if digits.isEmpty then none
  else
    match after1.drop digits.length with
    | '.' :: rest1 =>
      let ws2 := rest1.takeWhile Char.isWhitespace
      if ws2.isEmpty then none
      else some ⟨[], decide (ws2.getLast? = some '\n'), rest1.drop ws2.length⟩
    | _ => none

/-- The `replace_code_block` callback (src/routes.py 35-41): strip the
captured code, keep the stripped lines that are non-empty and not comments,
and speak the first two of them (or a generic phrase when none remain). -/
def codeReplacement (codeRaw : Str) : Str :=
  let code := stripChars codeRaw
  let lines := ((splitOnSub ['\n'] code).map stripChars).filter
      (fun l => !l.isEmpty && !(l.head? == some '#'))
  match lines with
  | [] => "Here\x27s some R code.".data
  | _ :: _ =>
    "Here\x27s the R code: ".data ++ List.intercalate ", ".data (lines.take 2)
      ++ "... and so on.".data

/-- Steps 2a/2b driver: `re.sub` with a lazy `(.*?)` between two literal
delimiters under `re.DOTALL` - the match starts at the earliest opener and
ends at the earliest following closer; when an opener has no closer, no later
opener has one either, so the scan stops. -/
def codeFencePass (opener closer : Str) : Nat → Str → Str
  | 0, s => s
  | fuel + 1, s =>
    match findSub opener s with
    | none => s
    | some (a, b) =>
      match findSub closer b with
      | none => s
      | some (code, rest) =>
        a ++ codeReplacement code ++ codeFencePass opener closer fuel rest

/-- Step 3: `re.sub` of an inline-code span (a backtick, one or more
non-backtick characters, a backtick) with its content.  When the character
after an opening backtick is another backtick the match at that position
fails and the scan moves past it. -/
def inlineCodePass : Nat → Str → Str
  | 0, s => s
  | fuel + 1, s =>
    match findSub [backtick] s with
    | none => s
    | some (a, b) =>
      let content := b.takeWhile (fun c => c ≠ backtick)
      match b.drop content.length, content with
      | _ :: r2, _ :: _ => a ++ content ++ inlineCodePass fuel r2
      | _, _ => a ++ backtick :: inlineCodePass fuel b

/-- Step 5 driver for one line: `re.sub` of a lazy `(.*?)` between two copies
of a literal marker, replaced by the content; without `re.DOTALL` the content
cannot contain a newline, so the global scan equals this scan applied line by
line. -/
def starPassLine (marker : Str) : Nat → Str → Str
  | 0, s => s
  | fuel + 1, s =>
    match findSub marker s with
    | none => s
    | some (a, b) =>
      match findSub marker b with
      | none => a ++ marker ++ b
      | some (inner, after) => a ++ inner ++ starPassLine marker fuel after

/-- Apply a newline-free transformation line by line. -/
def perLine (f : Str → Str) (s : Str) : Str :=
  List.intercalate ['\n'] ((splitOnSub ['\n'] s).map f)

/-- Step 6: `re.sub` of a markdown link (bracketed non-empty text without a
closing bracket, immediately followed by a parenthesized non-empty target
without a closing parenthesis) with the text.  On failure the scan moves past
the opening bracket. -/
def linkPass : Nat → Str → Str
  | 0, s => s
  | fuel + 1, s =>
    match findSub ['['] s with
    | none => s
    | some (a, b) =>
      let r1 := b.takeWhile (fun c => c ≠ ']')
      match b.drop r1.length, r1 with
      | ']' :: '(' :: b3, _ :: _ =>
        let r2 := b3.takeWhile (fun c => c ≠ ')')
        (match b3.drop r2.length, r2 with
         | ')' :: b5, _ :: _ => a ++ r1 ++ linkPass fuel b5
         | _, _ => a ++ '[' :: linkPass fuel b)
      | _, _ => a ++ '[' :: linkPass fuel b

/-- Step 7a replacement on one maximal whitespace run: the pattern
`\n\s*\n\s*\n+` matches inside a whitespace run containing at least three
newlines, from the first to the last newline of the run, and is replaced by
two newlines.  (Steps 7b and 7c erase any remaining distinction, since
together they collapse every whitespace run to a single space.) -/
def squashBlankRun (run : Str) : Str :=
  if 3 ≤ (run.filter (fun c => c = '\n')).length then
    run.takeWhile (fun c => c ≠ '\n') ++ '\n' :: '\n' ::
      (run.reverse.takeWhile (fun c => c ≠ '\n')).reverse
  else run

/-- Step 7a driver: locate the maximal whitespace runs. -/
def blankLinesPass : Nat → Str → Str
  | 0, s => s
  | fuel + 1, s =>
    match s with
    | [] => []
    | c :: t =>
      if c.isWhitespace then
        let run := (c :: t).takeWhile Char.isWhitespace
        squashBlankRun run ++ blankLinesPass fuel ((c :: t).drop run.length)
      else
        c :: blankLinesPass fuel t

/-- Step 7b: `re.sub` of `\n+` with a single space; the flag records whether
the previous character was a newline. -/
def newlineRunsToSpace : Str → Bool → Str
  | [], _ => []
  | c :: t, prevNl =>
    if c = '\n' then
      if prevNl then newlineRunsToSpace t true
      else ' ' :: newlineRunsToSpace t true
    else c :: newlineRunsToSpace t false

/-- Step 7c: `re.sub` of `\s+` with a single space. -/
def whitespaceRunsToSpace : Str → Bool → Str
  | [], _ => []
  | c :: t, prevWs =>
    if c.isWhitespace then
      if prevWs then whitespaceRunsToSpace t true
      else ' ' :: whitespaceRunsToSpace t true
    else c :: whitespaceRunsToSpace t false

/-- Step 10: strip, then append a period unless the text already ends with
terminal punctuation (`text.endswith((".", "!", "?"))`). -/
def ensureTerminal (s : Str) : Str :=
  let t := stripChars s
  if t.getLast? = some '.' ∨ t.getLast? = some '!' ∨ t.getLast? = some '?' then t
  else t ++ ['.']

/-- `_prepare_text_for_audio` (src/routes.py 25-90) on a character list: the
ten steps applied in source order. -/
def prepare_text_for_audio_list (content : Str) : Str :=
  let t1 := mlPass headerAttempt (content.length + 1) content
  let t2 := codeFencePass "```r\n".data "\n```".data (t1.length + 1) t1
  let t3 := codeFencePass "```".data "```".data (t2.length + 1) t2
  let t4 := inlineCodePass (t3.length + 1) t3
  let t5 := mlPass bulletAttempt (t4.length + 1) t4
  let t6 := mlPass numberedAttempt (t5.length + 1) t5
  let t7 := perLine (fun l => starPassLine "**".data (l.length + 1) l) t6
  let t8 := perLine (fun l => starPassLine "*".data (l.length + 1) l) t7
  let t9 := linkPass (t8.length + 1) t8
  let t10 := blankLinesPass (t9.length + 1) t9
  let t11 := newlineRunsToSpace t10 false
  let t12 := whitespaceRunsToSpace t11 false
  let t13 := replaceAllSub ". ".data ". ... ".data t12
  let t14 := replaceAllSub "! ".data "! ... ".data t13
  let t15 := replaceAllSub "? ".data "? ... ".data t14
  let t16 := replaceAllSub ": ".data ": ... ".data t15
  let t17 := replaceAllSub "ggplot2".data "G G plot 2".data t16
  let t18 := replaceAllSub "dplyr".data "D plier".data t17
  let t19 := replaceAllSub "tidyr".data "tidy R".data t18
  let t20 := replaceAllSub "%>%".data "pipe operator".data t19
  let t21 := replaceAllSub "data.frame".data "data frame".data t20
  let t22 := replaceAllSub "R programming".data "R programming".data t21
  let t23 := replaceAllSub "RStudio".data "R Studio".data t22
  ensureTerminal t23

/-- `_prepare_text_for_audio` (src/routes.py 25-90) on strings. -/
def prepare_text_for_audio (content : String) : String :=
  ⟨prepare_text_for_audio_list content.data⟩

theorem ensureTerminal_ne_nil (s : Str) : ensureTerminal s ≠ [] := by
  simp only [ensureTerminal]
  split_ifs with h
  · intro hnil
    rcases h with h | h | h <;> (rw [hnil] at h; simp at h)
  · intro hnil
    rcases List.append_eq_nil.mp hnil with ⟨-, h2⟩
    simp at h2

set_option maxHeartbeats 4000000 in
/-- Counterexample to C5: the normalizer is not idempotent on its own output.
On the already-normalized plain text produced from "Hello. World", the
pause-insertion step 8 re-expands the period-space bigram inside the
previously inserted pause marker. -/
theorem c5_not_idempotent_counterexample :
    prepare_text_for_audio "Hello. World" = "Hello. ... World." ∧
    prepare_text_for_audio (prepare_text_for_audio "Hello. World")
      = "Hello. ... ... ... World." ∧
    prepare_text_for_audio (prepare_text_for_audio "Hello. World")
      ≠ prepare_text_for_audio "Hello. World" := by
  refine ⟨by decide, by decide, by decide⟩

/-- List-level non-emptiness of the normalizer output, via its final step. -/
theorem prepare_text_for_audio_list_ne_nil (content : Str) :
    prepare_text_for_audio_list content ≠ [] := by
  simp only [prepare_text_for_audio_list]
  exact ensureTerminal_ne_nil _

/-- C5 as amended: `_prepare_text_for_audio` returns a non-empty string for
every input (empty inputs included: the final step appends terminal
punctuation whenever it is missing), but it is not idempotent on
already-normalized text - re-normalizing output that contains a sentence
punctuation mark followed by a space inserts additional pause markers. -/
theorem c5_normalizer_output_nonempty (content : String) :
    prepare_text_for_audio content ≠ "" := by
  intro h
  rw [prepare_text_for_audio, show ("" : String) = ⟨[]⟩ from rfl] at h
  injection h with h
  exact prepare_text_for_audio_list_ne_nil content.data h

/-! ## Audio optimization of generated content (claims C1 and C7)

`OpenRouterService._optimize_for_audio` (src/openrouter_service.py 498-614).
Step 2 of the source builds a `section_transitions` dictionary that is never
applied; step 3 (`re.sub` with `enhance_code_block`) rewrites every matched
code block to `f"```r\n{code}\n```"` with `enhanced_code = code` unchanged,
and step 6 (`improve_list_intro`) rewrites every match to
`f"\n\n{intro}\n\n{list_items}"` - both replacements reproduce the matched
text verbatim, so those two passes are the identity and are embedded as
such. -/

/-- The pronunciation map of `_optimize_for_audio` step 1
(src/openrouter_service.py 506-517), in insertion order. -/
def pronunciationPairs : List (String × String) :=
  [("ggplot2", "ggplot2 (G-G-plot-two)"),
   ("dplyr", "dplyr (D-plier)"),
   ("tidyr", "tidyr (tidy-R)"),
   ("%>%", "pipe operator (percent greater-than percent)"),
   ("data.frame", "data frame"),
   ("str()", "str function"),
   ("summary()", "summary function"),
   ("c()", "c function"),
   ("length()", "length function"),
   ("names()", "names function")]

/-- One entry of step 1: add the pronunciation guide on the first occurrence
only, and only when the term occurs and the guide is not already present
(`optimized.replace(term, pronunciation, 1)`). -/
def pronunciationStep (term pron : Str) (s : Str) : Str :=
  if containsSub term s && !containsSub pron s then replaceFirstSub term pron s
  else s

/-- Step 1 of `_optimize_for_audio`: the `for term, pronunciation in
pronunciation_map.items()` loop. -/
def pronunciationPass (s : Str) : Str :=
  pronunciationPairs.foldl (fun acc p => pronunciationStep p.1.data p.2.data acc) s

/-- The break points probed by step 4 (src/openrouter_service.py 576), in
order. -/
def breakPoints : List String :=
  [" and ", " but ", " however ", " therefore ", " which "]

/-- The `for break_point in break_points` loop of step 4: split once at the
first break point present and recombine as
`f"{parts[0]}. {break_point.strip().capitalize()} {parts[1]}"`. -/
def applyFirstBreak : List String → Str → Str
  | [], sent => sent
  | bp :: rest, sent =>
    match findSub bp.data sent with
    | some (a, b) =>
      a ++ ". ".data ++ pyCapitalize (stripChars bp.data) ++ ' ' :: b
    | none => applyFirstBreak rest sent

/-- Step 4 on one sentence: sentences of more than 25 words are split at the
first natural break point. -/
def transformSentence (sent : Str) : Str :=
  if 25 < (pyWords sent).length then applyFirstBreak breakPoints sent else sent

/-- Step 4 of `_optimize_for_audio` (src/openrouter_service.py 568-585):
`optimized.split(". ")`, transform each sentence, `". ".join(...)`. -/
def improveSentences (s : Str) : Str :=
  List.intercalate ". ".data ((splitOnSub ". ".data s).map transformSentence)

/-- The emphasis markers of step 5 (src/openrouter_service.py 588-594), in
insertion order. -/
def emphasisPairs : List (String × String) :=
  [("Important:", "This is important:"),
   ("Note:", "Please note:"),
   ("Warning:", "Here\x27s a warning:"),
   ("Tip:", "Here\x27s a helpful tip:"),
   ("Remember:", "Remember this:")]

/-- Step 5 of `_optimize_for_audio`: the emphasis replace loop. -/
def emphasisPass (s : Str) : Str :=
  emphasisPairs.foldl (fun acc p => replaceAllSub p.1.data p.2.data acc) s

/-- Step 7 of `_optimize_for_audio` (src/openrouter_service.py 610-612): the
three natural-speech-marker replaces, in source order. -/
def speechMarkersPass (s : Str) : Str :=
  replaceAllSub "Finally".data "And finally".data
    (replaceAllSub "In conclusion".data "To wrap up".data
      (replaceAllSub "\n\n## ".data "\n\nNow, let\x27s move on to ".data s))

/-- `OpenRouterService._optimize_for_audio` (src/openrouter_service.py
498-614): steps 1, 4, 5 and 7 in source order (steps 2, 3 and 6 are the
identity, see the section comment). -/
def optimize_for_audio (content : Str) : Str :=
  speechMarkersPass (emphasisPass (improveSentences (pronunciationPass content)))

theorem intercalate_singleton_eq (sep a : Str) : List.intercalate sep [a] = a := by
  simp [List.intercalate, List.intersperse]

theorem intercalate_cons_cons (sep a b : Str) (l : List Str) :
    List.intercalate sep (a :: b :: l) = a ++ sep ++ List.intercalate sep (b :: l) := by
  simp [List.intercalate, List.intersperse]

theorem pronunciationStep_ne_nil {term pron s : Str} (hpron : pron ≠ [])
    (hs : s ≠ []) : pronunciationStep term pron s ≠ [] := by
  unfold pronunciationStep
  split_ifs with h
  · exact replaceFirstSub_ne_nil hpron hs
  · exact hs

theorem pronunciationPass_ne_nil {s : Str} (hs : s ≠ []) :
    pronunciationPass s ≠ [] := by
  simp only [pronunciationPass, pronunciationPairs, List.foldl]
  iterate 10 apply pronunciationStep_ne_nil (by decide)
  exact hs

theorem applyFirstBreak_ne_nil (bps : List String) :
    ∀ sent : Str, sent ≠ [] → applyFirstBreak bps sent ≠ [] := by
  induction bps with
  | nil => intro sent hs; exact hs
  | cons bp rest ih =>
    intro sent hs
    rw [applyFirstBreak]
    cases hfind : findSub bp.data sent with
    | none => exact ih sent hs
    | some p =>
      obtain ⟨a, b⟩ := p
      intro hnil
      rcases List.append_eq_nil.mp hnil with ⟨-, h2⟩
      simp at h2

theorem transformSentence_ne_nil {sent : Str} (hs : sent ≠ []) :
    transformSentence sent ≠ [] := by
  unfold transformSentence
  split_ifs with h
  · exact applyFirstBreak_ne_nil breakPoints sent hs
  · exact hs

theorem improveSentences_ne_nil {s : Str} (hs : s ≠ []) :
    improveSentences s ≠ [] := by
  unfold improveSentences
  cases hsplit : splitOnSub ". ".data s with
  | nil => exact absurd hsplit (splitOnSub_ne_nil _ _)
  | cons h0 r =>
    cases r with
    | nil =>
      have h0s : h0 = s := splitOnSub_singleton hsplit
      rw [List.map_cons, List.map_nil, intercalate_singleton_eq]
      exact transformSentence_ne_nil (h0s ▸ hs)
    | cons h1 r2 =>
      rw [List.map_cons, List.map_cons, intercalate_cons_cons]
      intro hnil
      rcases List.append_eq_nil.mp hnil with ⟨h1nil, -⟩
      rcases List.append_eq_nil.mp h1nil with ⟨-, hsep⟩
      simp at hsep

theorem emphasisPass_ne_nil {s : Str} (hs : s ≠ []) : emphasisPass s ≠ [] := by
  simp only [emphasisPass, emphasisPairs, List.foldl]
  iterate 5 apply replaceAllSub_ne_nil (by decide)
  exact hs

theorem speechMarkersPass_ne_nil {s : Str} (hs : s ≠ []) :
    speechMarkersPass s ≠ [] := by
  unfold speechMarkersPass
  iterate 3 apply replaceAllSub_ne_nil (by decide)
  exact hs

theorem optimize_for_audio_ne_nil {s : Str} (hs : s ≠ []) :
    optimize_for_audio s ≠ [] := by
  unfold optimize_for_audio
  exact speechMarkersPass_ne_nil (emphasisPass_ne_nil
    (improveSentences_ne_nil (pronunciationPass_ne_nil hs)))

/-! ## Content parsing and fallback generation (claims C1 and C7)

`OpenRouterService._parse_tutorial_content`, its extraction helpers, and
`OpenRouterService._generate_fallback_content`
(src/openrouter_service.py 461-496, 616-730, 732-911, 913-1112). -/

/-- The double-quote character (code 34). -/
def dquoteChar : Char := Char.ofNat 34

/-- The apostrophe character (code 39). -/
def squoteChar : Char := Char.ofNat 39

/-- `OpenRouterService._extract_concepts` (src/openrouter_service.py
616-642): collect the known R concepts mentioned in the lowercased content
(title-cased), append the title-cased long words of the topic that are not
stop words, and keep the first eight. -/
def extract_concepts (content topic : String) : List String :=
  let contentLower := lowerStr content.data
  let rConcepts : List String :=
    ["data frames", "vectors", "lists", "matrices", "factors",
     "functions", "packages", "libraries", "visualization",
     "ggplot2", "dplyr", "tidyr", "statistical analysis",
     "machine learning", "data manipulation", "data cleaning",
     "regression", "classification", "clustering", "hypothesis testing",
     "loops", "conditionals", "apply functions", "pipes",
     "tidyverse", "base r", "data types", "indexing"]
  let found := (rConcepts.filter (fun c => containsSub c.data contentLower)).map
      (fun c => (⟨pyTitle c.data⟩ : String))
  let topicWords := pyWords (lowerStr topic.data)
  let extra := (topicWords.filter (fun w =>
      decide (3 < w.length) &&
        !((["with", "using", "and", "the", "for"] : List String).contains
          (⟨w⟩ : String)))).map (fun w => (⟨pyTitle w⟩ : String))
  (found ++ extra).take 8

/-- Parse the remainder after a `library(` / `require(` keyword, following
the pattern quote-optional, then a non-empty run of characters that are not
quotes, closing parentheses or whitespace (the captured group), then an
optional quote, then the closing parenthesis.  Returns the captured package
name and the text after the closing parenthesis. -/
def parseLibArg (b : Str) : Option (Str × Str) :=
  let b1 := match b with
    | q :: rest => if q = dquoteChar ∨ q = squoteChar then rest else b
    | [] => b
  let run := b1.takeWhile (fun c =>
    !(c = dquoteChar ∨ c = squoteChar ∨ c = ')' ∨ c.isWhitespace : Bool))
  if run.isEmpty then none
  else
    let b2 := b1.drop run.length
    let b3 := match b2 with
      | q :: rest => if q = dquoteChar ∨ q = squoteChar then rest else b2
      | [] => b2
    match b3 with
    | ')' :: rest => some (run, rest)
    | _ => none

/-- The `re.finditer` scan of `_extract_packages` for one package-loading
pattern (src/openrouter_service.py 649-660), case-insensitive on the literal
keyword; after a match the scan resumes past the closing parenthesis, after
a failed attempt it advances one character. -/
def libScan (keyword : Str) : Nat → Str → List Str
  | 0, _ => []
  | _ + 1, [] => []
  | fuel + 1, c :: t =>
    if lowerStr ((c :: t).take keyword.length) = keyword then
      match parseLibArg ((c :: t).drop keyword.length) with
      | some (arg, rest) => arg :: libScan keyword fuel rest
      | none => libScan keyword fuel t
    else libScan keyword fuel t

/-- `OpenRouterService._extract_packages` (src/openrouter_service.py
644-675): packages named in `library(...)` or `require(...)` calls plus the
common packages mentioned in the content, deduplicated and capped at six.
The source collects the names in a Python `set`, whose iteration order is
implementation-defined; the embedding keeps the first-insertion order
(library matches, then require matches, then the common-package list). -/
def extract_packages (content : String) : List String :=
  let libs := libScan "library(".data (content.data.length + 1) content.data
  let reqs := libScan "require(".data (content.data.length + 1) content.data
  let commonPackages : List String :=
    ["ggplot2", "dplyr", "tidyr", "readr", "tibble", "stringr",
     "forcats", "lubridate", "tidyverse", "data.table", "shiny",
     "plotly", "caret", "randomForest", "e1071", "cluster",
     "survival", "nlme", "lme4", "glmnet", "xgboost"]
  let contentLower := lowerStr content.data
  let fromCommons := commonPackages.filter
      (fun p => containsSub (lowerStr p.data) contentLower)
  let inOrder := (libs.map (fun l => (⟨stripChars l⟩ : String)))
      ++ (reqs.map (fun l => (⟨stripChars l⟩ : String))) ++ fromCommons
  inOrder.eraseDups.take 6

/-- `OpenRouterService._extract_objectives` (src/openrouter_service.py
677-692); the content argument is accepted but never read by the source. -/
def extract_objectives (_content topic : String) (expertise : Expertise) :
    List String :=
  ["Understand the fundamentals of " ++ topic,
   "Apply " ++ topic ++ " concepts in practical R programming",
   "Implement " ++ topic ++ " solutions for real-world problems"]
  ++ [match expertise with
      | .beginner => "Get started with " ++ topic ++ " basics in R"
      | .intermediate => "Master intermediate " ++ topic ++ " techniques"
      | .expert => "Explore advanced " ++ topic ++ " implementations"]

/-- `OpenRouterService._estimate_reading_time` (src/openrouter_service.py
694-698): `max(1, word_count // 200)`. -/
def estimate_reading_time (content : String) : ℤ :=
  ((max 1 ((pyWords content.data).length / 200) : ℕ) : ℤ)

/-- The `category_map` of `_categorize_topic` (src/openrouter_service.py
717-724), in insertion order. -/
def categoryMap : List (String × List String) :=
  [("data_structures", ["data frame", "vector", "list", "matrix", "structure"]),
   ("visualization", ["plot", "graph", "visual", "chart", "ggplot"]),
   ("modeling", ["model", "regression", "machine learning", "statistic", "analysis"]),
   ("programming", ["function", "package", "library", "programming", "code"]),
   ("data_wrangling", ["dplyr", "tidyr", "wrangle", "clean", "transform", "manipul"]),
   ("web_development", ["shiny", "web", "app", "dashboard", "interactive"])]

/-- `OpenRouterService._categorize_topic` (src/openrouter_service.py
713-730): first category whose keyword occurs in the lowercased topic,
otherwise "general". -/
def categorize_topic (topic : String) : String :=
  let topicLower := lowerStr topic.data
  match categoryMap.find? (fun cm => cm.2.any (fun k => containsSub k.data topicLower)) with
  | some cm => cm.1
  | none => "general"

/-- The dictionary returned by `generate_tutorial_content` and its helpers.
The success path additionally carries `audio_optimized: True`, a key the
fallback dictionary does not have, modelled as an `Option`. -/
structure TutorialData where
  content : String
  concepts : List String
  packages : List String
  objectives : List String
  is_premium : Bool
  estimated_reading_time : ℤ
  difficulty_score : ℤ
  character_count : ℕ
  word_count : ℕ
  topic_category : String
  generated_via : String
  model_used : String
  audio_optimized : Option Bool

/-- `OpenRouterService._parse_tutorial_content` (src/openrouter_service.py
461-496): optimize the provider content for audio and assemble the result
dictionary.  `model_used` is `self.default_text_model` (not the model the
call actually used); the duration argument is accepted but never read. -/
def parse_tutorial_content (content topic : String) (expertise : Expertise)
    (_duration : ℤ) (defaultTextModel : String) : TutorialData :=
  let audioOptimized : String := ⟨optimize_for_audio content.data⟩
  { content := audioOptimized,
    concepts := extract_concepts audioOptimized topic,
    packages := extract_packages audioOptimized,
    objectives := extract_objectives audioOptimized topic expertise,
    is_premium := true,
    estimated_reading_time := estimate_reading_time audioOptimized,
    difficulty_score := or_calculate_difficulty_score audioOptimized expertise,
    character_count := audioOptimized.data.length,
    word_count := (pyWords audioOptimized.data).length,
    topic_category := categorize_topic topic,
    generated_via := "openrouter",
    model_used := defaultTextModel,
    audio_optimized := some true }

/-- The topic-specific fields of `_get_topic_specific_content`
(src/openrouter_service.py 732-911) that its callers read: the
`code_example`, `use_cases` and `common_issues` entries of the returned
dictionaries are never read by any caller and are omitted. -/
structure TopicSpecific where
  intro : String
  packages : List String
  concepts : List String

/-- `OpenRouterService._get_topic_specific_content` (src/openrouter_service.py
732-911); the `config` argument of the source is never read inside the
function and is omitted. -/
def get_topic_specific_content (topic : String) : TopicSpecific :=
  let topicLower := lowerStr topic.data
  if containsSub "ggplot".data topicLower ∨ containsSub "visualization".data topicLower then
    { intro := "data visualization with ggplot2",
      packages := ["ggplot2", "dplyr", "scales", "RColorBrewer"],
      concepts := ["Grammar of Graphics", "Aesthetic mappings", "Layers and geoms",
        "Themes and customization"] }
  else if containsSub "machine learning".data topicLower ∨ containsSub "ml".data topicLower then
    { intro := "machine learning techniques in R",
      packages := ["caret", "randomForest", "e1071", "glmnet"],
      concepts := ["Training and testing", "Cross-validation", "Feature selection",
        "Model evaluation"] }
  else if containsSub "data".data topicLower ∧
      (containsSub "manipulation".data topicLower ∨ containsSub "wrangling".data topicLower) then
    { intro := "data manipulation with dplyr and tidyr",
      packages := ["dplyr", "tidyr", "readr", "stringr"],
      concepts := ["Filtering and selecting", "Grouping and summarizing",
        "Joins and merging", "Reshaping data"] }
  else if containsSub "shiny".data topicLower ∨ containsSub "app".data topicLower then
    { intro := "interactive web applications with Shiny",
      packages := ["shiny", "shinydashboard", "DT", "plotly"],
      concepts := ["UI and Server logic", "Reactivity", "Input widgets",
        "Output rendering"] }
  else if containsSub "statistic".data topicLower ∨ containsSub "analysis".data topicLower then
    { intro := "statistical analysis and modeling in R",
      packages := ["stats", "car", "lmtest", "broom"],
      concepts := ["Hypothesis testing", "Linear modeling", "ANOVA",
        "Model diagnostics"] }
  else
    { intro := topic ++ " in R programming",
      packages := ["base", "utils", "stats"],
      concepts := ["Basic concepts", "Implementation", "Best practices",
        "Troubleshooting"] }

/-- The `intro_text` chosen by `_generate_fallback_content`
(src/openrouter_service.py 928-939) from the expertise level, interpolating
the topic-specific intro and the content-length label (`\x27` is the
apostrophe). -/
def fallback_intro_text (expertise : Expertise) (intro contentLength : String) :
    String :=
  match expertise with
  | .beginner =>
    "Hello and welcome! I\x27m excited to guide you through your first steps with "
      ++ intro
      ++ ". Don\x27t worry if you\x27re new to this - we\x27ll take it step by step, and by the end of this "
      ++ contentLength ++ " tutorial, you\x27ll have a solid foundation to build upon."
  | .intermediate =>
    "Welcome back to R programming! Today, we\x27re diving into " ++ intro
      ++ ", building on the foundational knowledge you already have. This "
      ++ contentLength ++ " tutorial will help you take your skills to the next level."
  | .expert =>
    "Welcome to this advanced tutorial on " ++ intro ++ ". In this "
      ++ contentLength
      ++ " guide, we\x27ll explore sophisticated techniques and optimizations that will enhance your R programming expertise."

/-- The `explanation_depth` phrase of `_generate_fallback_content`
(src/openrouter_service.py 930, 934, 938). -/
def fallback_explanation_depth : Expertise → String
  | .beginner => "Let me explain this carefully, step by step."
  | .intermediate => "Now that you understand the basics of R, let\x27s explore how this works."
  | .expert => "Let\x27s examine the implementation details and performance considerations."

/-- The `encouragement` phrase of `_generate_fallback_content`
(src/openrouter_service.py 931, 935, 939). -/
def fallback_encouragement : Expertise → String
  | .beginner => "You\x27re doing great! This is exactly how learning works - one step at a time."
  | .intermediate => "Great! You can see how this connects to what you already know."
  | .expert => "Excellent! You can see the powerful applications of this approach."

/-- Everything of the fallback content f-string (src/openrouter_service.py
941-1092) after the leading `# R Tutorial: {topic}`. -/
def fallback_tail (topic introText explanationDepth encouragement : String)
    (expertise : Expertise) : String :=
  "\n\n## Introduction\n\n" ++ introText
    ++ "\n\n## What You\x27ll Learn\n\nBy the end of this tutorial, you\x27ll be able to:\n- Understand the core concepts of "
    ++ topic ++ " in R\n- Implement practical solutions using " ++ topic
    ++ "\n- Apply best practices for " ++ expertise.toStr
    ++ "-level development\n- Recognize common pitfalls and how to avoid them\n\n## Getting Started\n\nLet\x27s begin by setting up our R environment. First, we\x27ll load the packages we need for this tutorial.\n\n```r\n# Let\x27s load the essential packages for "
    ++ topic
    ++ "\nlibrary(tidyverse)  # For data manipulation and visualization\nlibrary(here)       # For project organization\n\n# Let\x27s also check our R version to ensure compatibility\nR.version.string\n```\n\n"
    ++ explanationDepth
    ++ " The tidyverse package gives us access to powerful tools like dplyr for data manipulation and ggplot2 for visualization. These will be essential for our work with "
    ++ topic ++ ".\n\n## Core Concepts\n\n### Understanding " ++ topic ++ "\n\n"
    ++ topic
    ++ " is a fundamental concept in R that allows us to work more effectively with data. Let me walk you through the key principles.\n\nThe most important thing to understand about "
    ++ topic
    ++ " is how it fits into your overall R workflow. Think of it as a bridge between your raw data and the insights you want to extract.\n\n### Key Components\n\nLet\x27s break down the essential components:\n\n1. **Data Structure**: How "
    ++ topic ++ " organizes information\n2. **Functions**: The tools we use to work with "
    ++ topic
    ++ "\n3. **Applications**: Real-world uses in data analysis\n\n## Hands-On Practice\n\nNow, let\x27s put this into practice with a concrete example. I\x27ll walk you through each step.\n\n### Step 1: Creating Sample Data\n\n```r\n# Let\x27s create some sample data to work with\nsample_data <- data.frame(\n  category = c(\"A\", \"B\", \"C\", \"A\", \"B\", \"C\"),\n  values = c(10, 15, 12, 18, 22, 14),\n  dates = seq(as.Date(\"2024-01-01\"), by = \"month\", length.out = 6)\n)\n\n# Let\x27s take a look at what we\x27ve created\nprint(sample_data)\n```\n\nPerfect! Now we have a dataset that demonstrates the key principles of "
    ++ topic
    ++ ". Notice how each row represents an observation, and each column represents a different variable.\n\n### Step 2: Basic Implementation\n\n```r\n# Now let\x27s apply "
    ++ topic
    ++ " concepts to our data\nresult <- sample_data %>%\n  group_by(category) %>%\n  summarise(\n    mean_value = mean(values),\n    total_observations = n(),\n    .groups = \"drop\"\n  )\n\nprint(result)\n```\n\n"
    ++ encouragement
    ++ " You can see how we\x27ve transformed our original data into meaningful insights using "
    ++ topic
    ++ " principles.\n\n## Real-World Applications\n\nLet me share some practical scenarios where "
    ++ topic
    ++ " becomes incredibly valuable:\n\n### Business Analytics\nIn business settings, "
    ++ topic
    ++ " helps analysts understand customer behavior, sales patterns, and market trends. For example, you might use these techniques to segment customers or identify seasonal patterns in sales data.\n\n### Research Applications\nResearchers across many fields use "
    ++ topic
    ++ " to analyze experimental data, survey responses, and observational studies. The ability to systematically examine patterns makes it an essential tool in the research toolkit.\n\n### Data Science Projects\nIn data science, "
    ++ topic
    ++ " forms the foundation for more advanced techniques like machine learning and predictive modeling. Understanding these fundamentals is crucial for building robust analytical solutions.\n\n## Best Practices and Tips\n\nHere are some important guidelines to keep in mind:\n\n### Code Organization\nAlways write clear, well-commented code. Your future self will thank you! Use meaningful variable names that describe what the data represents.\n\n### Data Validation\nBefore applying "
    ++ topic
    ++ " techniques, always check your data quality. Look for missing values, outliers, and inconsistencies that might affect your results.\n\n### Reproducibility\nMake your work reproducible by setting random seeds, documenting your process, and organizing your files systematically.\n\n## Common Pitfalls to Avoid\n\nLet me highlight some mistakes I often see:\n\n1. **Rushing the exploration phase**: Take time to understand your data before jumping into analysis\n2. **Ignoring data types**: Make sure your variables are properly formatted (numeric, factor, date, etc.)\n3. **Forgetting to validate results**: Always sense-check your outputs\n\n## Summary and Next Steps\n\nCongratulations! You\x27ve learned the essentials of "
    ++ topic
    ++ " in R. Let\x27s recap the key points:\n\n- We explored the fundamental concepts and terminology\n- You learned practical implementation techniques\n- We covered real-world applications and use cases\n- You now understand common pitfalls and how to avoid them\n\n### Recommended Practice\nTo reinforce what you\x27ve learned, try applying these concepts to your own datasets. Start with simple examples and gradually work up to more complex scenarios.\n\n### Further Learning\nConsider exploring these related topics:\n- Advanced R programming techniques\n- Statistical modeling in R\n- Data visualization best practices\n- R package development\n\n### Resources\n- R documentation and help files (use `?function_name`)\n- RStudio community forums\n- Online R courses and tutorials\n- Local R user groups and meetups\n\n## Final Thoughts\n\nRemember, learning R is a journey, not a destination. Each concept you master opens doors to new possibilities in data analysis and statistical computing.\n\nKeep practicing, stay curious, and don\x27t hesitate to experiment with different approaches. The R community is incredibly supportive, so don\x27t be afraid to ask questions and share your discoveries.\n\nThank you for joining me in this exploration of "
    ++ topic
    ++ ". Happy coding!\n\n---\n\n*This tutorial provides foundational knowledge to get you started. For more advanced content and personalized learning paths, consider upgrading to access AI-powered tutorials with OpenRouter integration.*"

/-- The `content` f-string of `_generate_fallback_content`
(src/openrouter_service.py 941-1092): the template starts with
`# R Tutorial: {topic}` followed by `fallback_tail`. -/
def fallback_content (topic : String) (expertise : Expertise)
    (contentLength : String) : String :=
  let topicSpecifics := get_topic_specific_content topic
  "# R Tutorial: " ++
    (topic ++
      fallback_tail topic
        (fallback_intro_text expertise topicSpecifics.intro contentLength)
        (fallback_explanation_depth expertise)
        (fallback_encouragement expertise) expertise)

/-- `OpenRouterService._generate_fallback_content` (src/openrouter_service.py
913-1112).  The `length_config` dictionary (lines 917-922) configures only
`_get_topic_specific_content`, which never reads it; the difficulty
dictionary at line 1106 is the 3/6/9 base score. -/
def generate_fallback_content (topic : String) (expertise : Expertise)
    (duration : ℤ) (contentLength : String) : TutorialData :=
  let topicSpecifics := get_topic_specific_content topic
  let content := fallback_content topic expertise contentLength
  { content := content,
    concepts := topicSpecifics.concepts,
    packages := topicSpecifics.packages,
    objectives :=
      ["Understand core concepts of " ++ topic ++ " in R",
       "Implement practical " ++ topic ++ " solutions",
       "Apply best practices for clean, readable code",
       "Recognize and avoid common pitfalls"],
    is_premium := false,
    estimated_reading_time := max 1 duration,
    difficulty_score := baseScore expertise,
    character_count := content.data.length,
    word_count := (pyWords content.data).length,
    topic_category := categorize_topic topic,
    generated_via := "enhanced_fallback",
    model_used := "local_generation",
    audio_optimized := none }

/-- `OpenRouterService.generate_tutorial_content` (src/openrouter_service.py
85-121).  The resolved model (`text_model or self.default_text_model`) and
the prompt built by `_create_tutorial_prompt` feed only the provider call,
whose observable outcome is the `chatOutcome` parameter (`None` on any
provider failure, per C3); `if not content:` treats both `None` and an empty
string as failure.  The surrounding `try`/`except` also routes any exception
to the fallback; in the embedding the only raising operation is the provider
call, which is already part of `chatOutcome`. -/
def generate_tutorial_content (topic : String) (expertise : Expertise)
    (duration : ℤ) (_textModel : Option String)
    (contentLength defaultTextModel : String) (chatOutcome : Option String) :
    TutorialData :=
  match chatOutcome with
  | none => generate_fallback_content topic expertise duration contentLength
  | some c =>
    if c = "" then generate_fallback_content topic expertise duration contentLength
    else parse_tutorial_content c topic expertise duration defaultTextModel

theorem header_append_ne_empty (X : String) : ("# R Tutorial: " ++ X) ≠ "" := by
  intro h
  have hl := congrArg String.length h
  rw [String.length_append] at hl
  have h14 : ("# R Tutorial: " : String).length = 14 := rfl
  have h0 : ("" : String).length = 0 := rfl
  omega

theorem fallback_content_ne_empty (topic : String) (expertise : Expertise)
    (contentLength : String) : fallback_content topic expertise contentLength ≠ "" := by
  rw [fallback_content]
  exact header_append_ne_empty _

theorem mk_optimize_ne_empty {c : String} (hc : c ≠ "") :
    (⟨optimize_for_audio c.data⟩ : String) ≠ "" := by
  intro h
  rw [show ("" : String) = ⟨[]⟩ from rfl] at h
  injection h with h
  have hdata : c.data ≠ [] := by
    intro hd
    apply hc
    obtain ⟨l⟩ := c
    cases hd
    rfl
  exact optimize_for_audio_ne_nil hdata h

/-- C1: for every valid input (non-empty topic, expertise in the enumeration,
duration in [1, 60]) and every provider outcome, `generate_tutorial_content`
returns a result whose content is a non-empty string and whose provenance
field `generated_via` is one of the two known values, "openrouter" (provider
success) or "enhanced_fallback" (local fallback). -/
theorem c1_generation_result_nonempty_known_source (topic : String)
    (expertise : Expertise) (duration : ℤ) (textModel : Option String)
    (contentLength defaultTextModel : String) (chatOutcome : Option String)
    (_htopic : topic ≠ "") (_hd1 : 1 ≤ duration) (_hd60 : duration ≤ 60) :
    (generate_tutorial_content topic expertise duration textModel contentLength
      defaultTextModel chatOutcome).content ≠ "" ∧
    ((generate_tutorial_content topic expertise duration textModel contentLength
        defaultTextModel chatOutcome).generated_via = "openrouter" ∨
     (generate_tutorial_content topic expertise duration textModel contentLength
        defaultTextModel chatOutcome).generated_via = "enhanced_fallback") := by
  cases chatOutcome with
  | none =>
    refine ⟨?_, Or.inr rfl⟩
    show fallback_content topic expertise contentLength ≠ ""
    exact fallback_content_ne_empty topic expertise contentLength
  | some c =>
    by_cases hc : c = ""
    · simp only [generate_tutorial_content, hc, if_pos]
      refine ⟨?_, Or.inr rfl⟩
      exact fallback_content_ne_empty topic expertise contentLength
    · simp only [generate_tutorial_content, hc, if_neg, not_false_iff]
      refine ⟨?_, Or.inl rfl⟩
      exact mk_optimize_ne_empty hc

/-- Witness for C1 at concrete inputs (provider failing). -/
theorem c1_generation_result_witness :
    ("Data Structures" : String) ≠ "" ∧ (1 : ℤ) ≤ 5 ∧ (5 : ℤ) ≤ 60 ∧
    ((generate_tutorial_content "Data Structures" Expertise.beginner 5 none
        "medium" "anthropic/claude-3.5-sonnet" none).content ≠ "" ∧
     ((generate_tutorial_content "Data Structures" Expertise.beginner 5 none
         "medium" "anthropic/claude-3.5-sonnet" none).generated_via = "openrouter" ∨
      (generate_tutorial_content "Data Structures" Expertise.beginner 5 none
         "medium" "anthropic/claude-3.5-sonnet" none).generated_via = "enhanced_fallback")) :=
  ⟨by decide, by decide, by decide,
   c1_generation_result_nonempty_known_source "Data Structures"
     Expertise.beginner 5 none "medium" "anthropic/claude-3.5-sonnet" none
     (by decide) (by decide) (by decide)⟩

/-- Counterexample to C7: in the claimed scenario (topic "Data Structures",
beginner, 5 minutes, every remote provider returning null) the provenance
field `generated_via` of the result is "enhanced_fallback", not
"local_fallback" as the claim states. -/
theorem c7_fallback_source_counterexample :
    (generate_tutorial_content "Data Structures" Expertise.beginner 5 none
      "medium" "anthropic/claude-3.5-sonnet" none).generated_via
      = "enhanced_fallback" ∧
    (generate_tutorial_content "Data Structures" Expertise.beginner 5 none
      "medium" "anthropic/claude-3.5-sonnet" none).generated_via
      ≠ "local_fallback" := by
  refine ⟨rfl, by decide⟩

/-- C7 as amended: with topic "Data Structures", expertise beginner, duration
5 and every remote provider returning null, the result's provenance field
`generated_via` equals "enhanced_fallback" (with `model_used` equal to
"local_generation"), its content contains the literal substring
"Data Structures", and its objectives list has at least one entry (it has
four). -/
theorem c7_fallback_scenario_amended :
    (generate_tutorial_content "Data Structures" Expertise.beginner 5 none
      "medium" "anthropic/claude-3.5-sonnet" none).generated_via
      = "enhanced_fallback" ∧
    (generate_tutorial_content "Data Structures" Expertise.beginner 5 none
      "medium" "anthropic/claude-3.5-sonnet" none).model_used
      = "local_generation" ∧
    (∃ pre post : String,
      (generate_tutorial_content "Data Structures" Expertise.beginner 5 none
        "medium" "anthropic/claude-3.5-sonnet" none).content =
        pre ++ ("Data Structures" ++ post)) ∧
    1 ≤ (generate_tutorial_content "Data Structures" Expertise.beginner 5 none
      "medium" "anthropic/claude-3.5-sonnet" none).objectives.length := by
  refine ⟨rfl, rfl, ?_, by decide⟩
  exact ⟨"# R Tutorial: ",
    fallback_tail "Data Structures"
      (fallback_intro_text Expertise.beginner
        (get_topic_specific_content "Data Structures").intro "medium")
      (fallback_explanation_depth Expertise.beginner)
      (fallback_encouragement Expertise.beginner) Expertise.beginner, rfl⟩

end LMSAI
